import Mathlib

/-!
Verification of the Duck Creek XML file connector
(src/sources/duck_creek/duck_creek.py, class LakeflowConnect).

The connector reads XML policy files from a directory and flattens them into
13 relational tables.  This file gives a shallow embedding of the connector:

* XML element trees (`xml.etree.ElementTree.Element`) become the inductive
  type `Elem`; `find`, `findall` and the descendant search `findall(".//tag")`
  are translated directly.
* Python scalar values flowing into a record dict become `Value`
  (`None` ↦ `Value.null`, `str` ↦ `Value.str`, `float` ↦ `Value.num` with the
  numeric value modelled as a rational).
* A record dict becomes an association list `Record` in the literal key order
  of the source.
* Each `_extract_*` method becomes an `extract*` function; the loops that
  thread a per-file counter become explicit recursions with the counter as an
  accumulator.
* `read_table` becomes `readTable`; the file system is abstracted as a list of
  `FileData` entries `(path, modification time, parse result)`, where a
  `none` parse result models an `ET.ParseError` (caught and skipped in the
  source).  `datetime.utcnow()` is abstracted as the `extractedAt` argument:
  it is the only time-dependent input of an extraction call.
* Python string comparison (`>` on ISO timestamps) is code-point-wise
  lexicographic comparison, translated as `pyStrLt`.
-/

/-- A Python scalar value as it appears in an extracted record: `None`, a
string, or a float (modelled exactly as a rational number). -/
inductive Value where
  | null : Value
  | str : String → Value
  | num : ℚ → Value
deriving DecidableEq, Repr

/-- Translation of implicitly passing an `Optional[str]` where a record value
is expected: `None` becomes `Value.null`. -/
def strOpt : Option String → Value
  | none => Value.null
  | some s => Value.str s

/-- Rendering of an `Optional[str]` inside a Python f-string: `None` renders
as the four characters `None`. -/
def pyStr : Option String → String
  | none => "None"
  | some s => s

/-- The decimal digit characters used when rendering a counter in an
f-string. -/
def decDigit : Nat → Char
  | 0 => '0'
  | 1 => '1'
  | 2 => '2'
  | 3 => '3'
  | 4 => '4'
  | 5 => '5'
  | 6 => '6'
  | 7 => '7'
  | 8 => '8'
  | _ => '9'

/-- Decimal digit list of a natural number, most significant digit first;
models how a Python f-string renders an `int`. -/
def natToDecAux (n : Nat) : List Char :=
  if _h : n < 10 then [decDigit n]
  else natToDecAux (n / 10) ++ [decDigit (n % 10)]
decreasing_by exact Nat.div_lt_self (by omega) (by omega)

/-- Fuel-driven computation of `natToDecAux`; structurally recursive so that
concrete identifiers evaluate inside `decide` and `rfl` proofs. -/
def natToDecCore (fuel n : Nat) : List Char :=
  match fuel with
  | 0 => [decDigit n]
  | fuel + 1 =>
    if n < 10 then [decDigit n]
    else natToDecCore fuel (n / 10) ++ [decDigit (n % 10)]

/-- Decimal rendering of a counter inside an f-string. -/
def natToDec (n : Nat) : String := ⟨natToDecCore n n⟩

/-- Code-point-wise lexicographic comparison of character lists; this is how
Python compares two `str` values with `<` and `>`. -/
def lexLt : List Char → List Char → Bool
  | [], [] => false
  | [], _ :: _ => true
  | _ :: _, [] => false
  | c :: cs, d :: ds =>
    if c.toNat < d.toNat then true
    else if d.toNat < c.toNat then false
    else lexLt cs ds

/-- Python `a < b` on strings. -/
def pyStrLt (a b : String) : Bool := lexLt a.data b.data

/-- Translation of `xml.etree.ElementTree.Element`: a tag, an attribute mapping, the text
before the first child (`Element.text`), and the list of child elements. -/
inductive Elem where
  | mk : String → List (String × String) → Option String → List Elem → Elem

/-- The tag of an element. -/
def Elem.tag : Elem → String
  | .mk t _ _ _ => t

/-- The attribute mapping of an element. -/
def Elem.attrs : Elem → List (String × String)
  | .mk _ a _ _ => a

/-- Translation of `Element.text`: the text before the first child element. -/
def Elem.text : Elem → Option String
  | .mk _ _ x _ => x

/-- The list of child elements. -/
def Elem.children : Elem → List Elem
  | .mk _ _ _ cs => cs

/-- Translation of `Element.get(key)`: attribute lookup, `None` when absent. -/
def Elem.get (e : Elem) (key : String) : Option String :=
  List.lookup key e.attrs

/-- Translation of `Element.find(tag)`: the first direct child with the given tag, or
`None`. -/
def Elem.find (e : Elem) (t : String) : Option Elem :=
  e.children.find? (fun c => c.tag == t)

/-- Translation of `Element.findall(tag)`: all direct children with the given tag, in
document order. -/
def Elem.findall (e : Elem) (t : String) : List Elem :=
  e.children.filter (fun c => c.tag == t)

mutual

/-- All proper descendants of an element in document (preorder) order. -/
def Elem.descendants : Elem → List Elem
  | .mk _ _ _ cs => descendantsList cs

/-- Preorder listing of a forest: each root followed by its descendants. -/
def descendantsList : List Elem → List Elem
  | [] => []
  | c :: cs => c :: Elem.descendants c ++ descendantsList cs

end

/-- Translation of `Element.findall(".//tag")`: all descendants with the given tag, in
document order. -/
def Elem.findallDesc (e : Elem) (t : String) : List Elem :=
  e.descendants.filter (fun c => c.tag == t)

/-- Translation of `os.path.basename`: the part of the path after the last `/`. -/
def basename (p : String) : String :=
  (p.splitOn "/").getLastD ""

/-- An extracted record: the Python dict in its literal key order. -/
abbrev Record := List (String × Value)

/-- Numeric value of a decimal digit character; helper for `pyFloatQ`. -/
def digitVal (c : Char) : Nat := c.toNat - 48

/-- Whether a character is a decimal digit. -/
def isDigitChar (c : Char) : Bool := 48 ≤ c.toNat && c.toNat ≤ 57

/-- Value of a nonempty digit string, most significant first. -/
def digitsVal (l : List Char) : Nat :=
  l.foldl (fun a c => 10 * a + digitVal c) 0

/-- Modelled from Python `float(text)` on already-stripped text: an optional
sign, a decimal significand (digits, optionally with a `.` and fractional
digits, at least one digit overall), and an optional exponent.  The result is
the exact rational value.  Special forms (`inf`, `nan`, underscore digit
separators, hexadecimal floats) are not modelled; none of the verified claims
depend on them. -/
def pyFloatQ (s : String) : Option ℚ :=
  let afterSign : List Char × Bool :=
    match s.data with
    | '-' :: rest => (rest, true)
    | '+' :: rest => (rest, false)
    | l => (l, false)
  let intPart := afterSign.1.takeWhile isDigitChar
  let rest1 := afterSign.1.dropWhile isDigitChar
  let fracRest : List Char × List Char :=
    match rest1 with
    | '.' :: r => (r.takeWhile isDigitChar, r.dropWhile isDigitChar)
    | r => ([], r)
  let fracPart := fracRest.1
  let expVal : Option Int :=
    match fracRest.2 with
    | [] => some 0
    | e :: r =>
      if e = 'e' ∨ e = 'E' then
        let signed : List Char × Bool :=
          match r with
          | '-' :: r2 => (r2, true)
          | '+' :: r2 => (r2, false)
          | r2 => (r2, false)
        if signed.1 ≠ [] ∧ signed.1.all isDigitChar then
          some (if signed.2 then -(digitsVal signed.1 : Int) else (digitsVal signed.1 : Int))
        else none
      else none
  if intPart = [] ∧ fracPart = [] then none
  else
    match expVal with
    | none => none
    | some e =>
      let mantissa : ℚ := (digitsVal intPart : ℚ) + (digitsVal fracPart : ℚ) / (10 : ℚ) ^ fracPart.length
      let signed : ℚ := if afterSign.2 then -mantissa else mantissa
      some (signed * (10 : ℚ) ^ e)

/-- Translation of `_get_text(elem, default)`: if the element exists and its `text` is a
nonempty string, the stripped text, otherwise the default. -/
def getText (elem : Option Elem) (default : Option String) : Option String :=
  match elem with
  | some e =>
    match e.text with
    | some t => if t = "" then default else some t.trim
    | none => default
  | none => default

/-- Translation of `_get_float(elem, default)`: the element's own text parsed as a float
when that succeeds, otherwise the default.  The default is a full `Value`
because the source also passes raw attribute strings as defaults. -/
def getFloat (elem : Option Elem) (default : Value) : Value :=
  match getText elem none with
  | some t =>
    if t = "" then default
    else
      match pyFloatQ t with
      | some q => Value.num q
      | none => default
  | none => default

/-! ## Record builders (one per table, the dict literals of the source) -/

/-- The record dict of `_extract_policies`. -/
def polRec (sessionId policyId : Option String) (policy : Elem) (sf mt ea : String) : Record :=
  [("policy_id", strOpt policyId),
   ("session_id", strOpt sessionId),
   ("effective_date", strOpt (getText (policy.find "EffectiveDate") none)),
   ("expiration_date", strOpt (getText (policy.find "ExpirationDate") none)),
   ("term", strOpt (getText (policy.find "Term") none)),
   ("line_of_business", strOpt (getText (policy.find "LineOfBusiness") none)),
   ("quote_number", strOpt (getText (policy.find "QuoteNumber") none)),
   ("policy_number", strOpt (getText (policy.find "PolicyNumber") none)),
   ("status", strOpt (getText (policy.find "Status") none)),
   ("last_transaction_type", strOpt (getText (policy.find "LastTransactionType") none)),
   ("primary_rating_state", strOpt (getText (policy.find "PrimaryRatingState") none)),
   ("segment", strOpt (getText (policy.find "Segment") none)),
   ("product", strOpt (getText (policy.find "Product") none)),
   ("writing_company", strOpt (getText (policy.find "WritingCompany") none)),
   ("filing_type", strOpt (getText (policy.find "FilingType") none)),
   ("agency_id", strOpt (getText (policy.find "AgencyID") none)),
   ("producer", strOpt (getText (policy.find "Producer") none)),
   ("premium", getFloat (policy.find "Premium") Value.null),
   ("premium_written", getFloat (policy.find "PremiumWritten") Value.null),
   ("premium_change", getFloat (policy.find "PremiumChange") Value.null),
   ("transaction_date", strOpt (getText (policy.find "TransactionDate") none)),
   ("transaction_sequence_number", strOpt (getText (policy.find "TransactionSequenceNumber") none)),
   ("endorsement_number", strOpt (getText (policy.find "EndorsementNumber") none)),
   ("term_number", strOpt (getText (policy.find "TermNumber") none)),
   ("renewal_type", strOpt (getText (policy.find "RenewalType") none)),
   ("cancellation_date", strOpt (getText (policy.find "CancellationDate") none)),
   ("include_terrorism", strOpt (getText (policy.find "IncludeTerrorism") none)),
   ("include_gl", strOpt (getText (policy.find "IncludeGL") none)),
   ("include_property", strOpt (getText (policy.find "IncludeProperty") none)),
   ("source_file", Value.str sf),
   ("file_modified_time", Value.str mt),
   ("_extracted_at", Value.str ea)]

/-- The record dict of `_extract_lines`.  Note that the source passes the
`written` and `change` attribute strings as the DEFAULT of `_get_float`, with
the line element itself as the element to parse. -/
def lineRec (lineId policyId : Option String) (line : Elem) (sf ea : String) : Record :=
  [("line_id", strOpt lineId),
   ("policy_id", strOpt policyId),
   ("type", strOpt (getText (line.find "Type") none)),
   ("written", getFloat (some line) (strOpt (line.get "written"))),
   ("change", getFloat (some line) (strOpt (line.get "change"))),
   ("is_reportable", strOpt (getText (line.find "IsReportable") none)),
   ("is_final_report", strOpt (getText (line.find "IsFinalReport") none)),
   ("has_earthquake_been_selected", strOpt (getText (line.find "HasEarthquakeBeenSelected") none)),
   ("source_file", Value.str sf),
   ("_extracted_at", Value.str ea)]

/-- The record dict of `_extract_coverages`. -/
def covRec (covId : String) (lineId policyId : Option String) (cov : Elem) (sf ea : String) :
    Record :=
  [("coverage_id", Value.str covId),
   ("line_id", strOpt lineId),
   ("policy_id", strOpt policyId),
   ("type", strOpt (getText (cov.find "Type") none)),
   ("premium", getFloat (cov.find "Premium") Value.null),
   ("written", getFloat (some cov) (strOpt (cov.get "written"))),
   ("change", getFloat (some cov) (strOpt (cov.get "change"))),
   ("is_cov_endorsement", strOpt (getText (cov.find "IsCovEndorsement") none)),
   ("source_file", Value.str sf),
   ("_extracted_at", Value.str ea)]

/-- The record dict of `_extract_exposures`. -/
def expRec (expId : String) (lineId policyId : Option String) (exp : Elem) (sf ea : String) :
    Record :=
  [("exposure_id", Value.str expId),
   ("line_id", strOpt lineId),
   ("policy_id", strOpt policyId),
   ("type", strOpt (getText (exp.find "Type") none)),
   ("i_value", strOpt (getText (exp.find "iValue") none)),
   ("f_value", getFloat (exp.find "fValue") Value.null),
   ("s_value", strOpt (getText (exp.find "sValue") none)),
   ("source_file", Value.str sf),
   ("_extracted_at", Value.str ea)]

/-- The record dict of `_extract_limits`. -/
def limRec (limId : String) (lineId policyId : Option String) (lim : Elem) (sf ea : String) :
    Record :=
  [("limit_id", Value.str limId),
   ("line_id", strOpt lineId),
   ("policy_id", strOpt policyId),
   ("type", strOpt (getText (lim.find "Type") none)),
   ("amount", getFloat (lim.find "Amount") Value.null),
   ("i_value", strOpt (getText (lim.find "iValue") none)),
   ("f_value", getFloat (lim.find "fValue") Value.null),
   ("scope", strOpt (getText (lim.find "Scope") none)),
   ("source_file", Value.str sf),
   ("_extracted_at", Value.str ea)]

/-- The record dict of `_extract_deductibles`. -/
def dedRec (dedId : String) (lineId policyId : Option String) (ded : Elem) (sf ea : String) :
    Record :=
  [("deductible_id", Value.str dedId),
   ("line_id", strOpt lineId),
   ("policy_id", strOpt policyId),
   ("type", strOpt (getText (ded.find "Type") none)),
   ("amount", getFloat (ded.find "Amount") Value.null),
   ("i_value", strOpt (getText (ded.find "iValue") none)),
   ("f_value", getFloat (ded.find "fValue") Value.null),
   ("scope", strOpt (getText (ded.find "Scope") none)),
   ("source_file", Value.str sf),
   ("_extracted_at", Value.str ea)]

/-- The record dict of `_extract_locations`. -/
def locRec (locId acctId policyId : Option String) (location : Elem) (sf ea : String) : Record :=
  [("location_id", strOpt locId),
   ("account_id", strOpt acctId),
   ("policy_id", strOpt policyId),
   ("deleted", strOpt (location.get "deleted")),
   ("source_file", Value.str sf),
   ("_extracted_at", Value.str ea)]

/-- The record dict of `_extract_buildings`. -/
def bldRec (bldId locId policyId : Option String) (sf ea : String) : Record :=
  [("building_id", strOpt bldId),
   ("location_id", strOpt locId),
   ("policy_id", strOpt policyId),
   ("source_file", Value.str sf),
   ("_extracted_at", Value.str ea)]

/-- The record dict of `_extract_occupancies`. -/
def occRec (occId locId policyId : Option String) (sf ea : String) : Record :=
  [("occupancy_id", strOpt occId),
   ("location_id", strOpt locId),
   ("policy_id", strOpt policyId),
   ("source_file", Value.str sf),
   ("_extracted_at", Value.str ea)]

/-- The record dict of `_extract_accounts`. -/
def acctRec (acctId policyId : Option String) (account : Elem) (sf ea : String) : Record :=
  [("account_id", strOpt acctId),
   ("policy_id", strOpt policyId),
   ("name", strOpt (getText (account.find "Name") none)),
   ("dba", strOpt (getText (account.find "DBA") none)),
   ("entity_type", strOpt (getText (account.find "EntityType") none)),
   ("brief_description", strOpt (getText (account.find "BriefDescription") none)),
   ("primary_phone", strOpt (getText (account.find "PrimaryPhone") none)),
   ("fax", strOpt (getText (account.find "Fax") none)),
   ("email", strOpt (getText (account.find "Email") none)),
   ("same_as_mailing_address", strOpt (getText (account.find "SameAsMailingAddress") none)),
   ("sic_code", strOpt (getText (account.find "SICCode") none)),
   ("source_file", Value.str sf),
   ("_extracted_at", Value.str ea)]

/-- The record dict of `_extract_addresses`; `locId` is `Value.null` for the
account-level loop and the location's id for the location-level loop. -/
def addrRec (addrId : Option String) (locId : Value) (acctId policyId : Option String)
    (address : Elem) (sf ea : String) : Record :=
  [("address_id", strOpt addrId),
   ("location_id", locId),
   ("account_id", strOpt acctId),
   ("policy_id", strOpt policyId),
   ("latitude", strOpt (getText (address.find "Latitude") none)),
   ("longitude", strOpt (getText (address.find "Longitude") none)),
   ("last_verified", strOpt (getText (address.find "LastVerified") none)),
   ("source_file", Value.str sf),
   ("_extracted_at", Value.str ea)]

/-- The record dict of `_extract_underwriter_referrals`. -/
def refRec (refId : String) (policyId : Option String) (sf ea : String) : Record :=
  [("referral_id", Value.str refId),
   ("policy_id", strOpt policyId),
   ("source_file", Value.str sf),
   ("_extracted_at", Value.str ea)]

/-- The record dict of `_extract_tax_surcharges`; `lineId` is `Value.null`
for policy-level surcharges. -/
def taxRec (taxId : String) (policyId : Option String) (lineId : Value) (tax : Elem)
    (sf ea : String) : Record :=
  [("tax_surcharge_id", Value.str taxId),
   ("policy_id", strOpt policyId),
   ("line_id", lineId),
   ("tax_state", strOpt (getText (tax.find "TaxState") none)),
   ("amount", getFloat (tax.find "Amount") Value.null),
   ("written", getFloat (some tax) (strOpt (tax.get "written"))),
   ("change", getFloat (some tax) (strOpt (tax.get "change"))),
   ("type", strOpt (getText (tax.find "Type") none)),
   ("source_file", Value.str sf),
   ("_extracted_at", Value.str ea)]

/-! ## The thirteen extraction rules -/

/-- Translation of `_extract_policies`. -/
def extractPolicies (root : Elem) (sf mt ea : String) : List Record :=
  (root.findallDesc "data").flatMap fun data =>
    (data.findall "policy").map fun policy =>
      polRec (root.get "id") (policy.get "id") policy sf mt ea

/-- Translation of `_extract_lines`. -/
def extractLines (root : Elem) (sf ea : String) : List Record :=
  (root.findallDesc "data").flatMap fun data =>
    (data.findall "policy").flatMap fun policy =>
      (policy.findall "line").map fun line =>
        lineRec (line.get "id") (policy.get "id") line sf ea

/-- Innermost loop of `_extract_coverages`: the coverages of one line, with
the per-file counter threaded through. -/
def covLoopCovs (sf ea : String) (pid lid : Option String) :
    List Elem → Nat → List Record × Nat
  | [], ctr => ([], ctr)
  | cov :: rest, ctr =>
    let cid0 := (cov.get "id").getD ""
    if cid0 = "" then
      let ctr1 := ctr + 1
      let cid := "cov_" ++ pyStr pid ++ "_" ++ pyStr lid ++ "_" ++ natToDec ctr1
      let res := covLoopCovs sf ea pid lid rest ctr1
      (covRec cid lid pid cov sf ea :: res.1, res.2)
    else
      let res := covLoopCovs sf ea pid lid rest ctr
      (covRec cid0 lid pid cov sf ea :: res.1, res.2)

/-- Line loop of `_extract_coverages`. -/
def covLoopLines (sf ea : String) (pid : Option String) :
    List Elem → Nat → List Record × Nat
  | [], ctr => ([], ctr)
  | line :: rest, ctr =>
    let res1 := covLoopCovs sf ea pid (line.get "id") (line.findall "coverage") ctr
    let res2 := covLoopLines sf ea pid rest res1.2
    (res1.1 ++ res2.1, res2.2)

/-- Policy loop of `_extract_coverages`. -/
def covLoopPolicies (sf ea : String) : List Elem → Nat → List Record × Nat
  | [], ctr => ([], ctr)
  | policy :: rest, ctr =>
    let res1 := covLoopLines sf ea (policy.get "id") (policy.findall "line") ctr
    let res2 := covLoopPolicies sf ea rest res1.2
    (res1.1 ++ res2.1, res2.2)

/-- Data loop of `_extract_coverages`. -/
def covLoopDatas (sf ea : String) : List Elem → Nat → List Record × Nat
  | [], ctr => ([], ctr)
  | data :: rest, ctr =>
    let res1 := covLoopPolicies sf ea (data.findall "policy") ctr
    let res2 := covLoopDatas sf ea rest res1.2
    (res1.1 ++ res2.1, res2.2)

/-- Translation of `_extract_coverages`: per-file counter starts at 0. -/
def extractCoverages (root : Elem) (sf ea : String) : List Record :=
  (covLoopDatas sf ea (root.findallDesc "data") 0).1

/-- Innermost loop of `_extract_exposures`. -/
def expLoopExps (sf ea : String) (pid lid : Option String) :
    List Elem → Nat → List Record × Nat
  | [], ctr => ([], ctr)
  | exp :: rest, ctr =>
    let eid0 := (exp.get "id").getD ""
    if eid0 = "" then
      let ctr1 := ctr + 1
      let eid := "exp_" ++ pyStr pid ++ "_" ++ pyStr lid ++ "_" ++ natToDec ctr1
      let res := expLoopExps sf ea pid lid rest ctr1
      (expRec eid lid pid exp sf ea :: res.1, res.2)
    else
      let res := expLoopExps sf ea pid lid rest ctr
      (expRec eid0 lid pid exp sf ea :: res.1, res.2)

/-- Line loop of `_extract_exposures`. -/
def expLoopLines (sf ea : String) (pid : Option String) :
    List Elem → Nat → List Record × Nat
  | [], ctr => ([], ctr)
  | line :: rest, ctr =>
    let res1 := expLoopExps sf ea pid (line.get "id") (line.findall "exposure") ctr
    let res2 := expLoopLines sf ea pid rest res1.2
    (res1.1 ++ res2.1, res2.2)

/-- Policy loop of `_extract_exposures`. -/
def expLoopPolicies (sf ea : String) : List Elem → Nat → List Record × Nat
  | [], ctr => ([], ctr)
  | policy :: rest, ctr =>
    let res1 := expLoopLines sf ea (policy.get "id") (policy.findall "line") ctr
    let res2 := expLoopPolicies sf ea rest res1.2
    (res1.1 ++ res2.1, res2.2)

/-- Data loop of `_extract_exposures`. -/
def expLoopDatas (sf ea : String) : List Elem → Nat → List Record × Nat
  | [], ctr => ([], ctr)
  | data :: rest, ctr =>
    let res1 := expLoopPolicies sf ea (data.findall "policy") ctr
    let res2 := expLoopDatas sf ea rest res1.2
    (res1.1 ++ res2.1, res2.2)

/-- Translation of `_extract_exposures`. -/
def extractExposures (root : Elem) (sf ea : String) : List Record :=
  (expLoopDatas sf ea (root.findallDesc "data") 0).1

/-- Innermost loop of `_extract_limits`. -/
def limLoopLims (sf ea : String) (pid lid : Option String) :
    List Elem → Nat → List Record × Nat
  | [], ctr => ([], ctr)
  | lim :: rest, ctr =>
    let lid0 := (lim.get "id").getD ""
    if lid0 = "" then
      let ctr1 := ctr + 1
      let lmid := "lim_" ++ pyStr pid ++ "_" ++ pyStr lid ++ "_" ++ natToDec ctr1
      let res := limLoopLims sf ea pid lid rest ctr1
      (limRec lmid lid pid lim sf ea :: res.1, res.2)
    else
      let res := limLoopLims sf ea pid lid rest ctr
      (limRec lid0 lid pid lim sf ea :: res.1, res.2)

/-- Line loop of `_extract_limits`. -/
def limLoopLines (sf ea : String) (pid : Option String) :
    List Elem → Nat → List Record × Nat
  | [], ctr => ([], ctr)
  | line :: rest, ctr =>
    let res1 := limLoopLims sf ea pid (line.get "id") (line.findall "limit") ctr
    let res2 := limLoopLines sf ea pid rest res1.2
    (res1.1 ++ res2.1, res2.2)

/-- Policy loop of `_extract_limits`. -/
def limLoopPolicies (sf ea : String) : List Elem → Nat → List Record × Nat
  | [], ctr => ([], ctr)
  | policy :: rest, ctr =>
    let res1 := limLoopLines sf ea (policy.get "id") (policy.findall "line") ctr
    let res2 := limLoopPolicies sf ea rest res1.2
    (res1.1 ++ res2.1, res2.2)

/-- Data loop of `_extract_limits`. -/
def limLoopDatas (sf ea : String) : List Elem → Nat → List Record × Nat
  | [], ctr => ([], ctr)
  | data :: rest, ctr =>
    let res1 := limLoopPolicies sf ea (data.findall "policy") ctr
    let res2 := limLoopDatas sf ea rest res1.2
    (res1.1 ++ res2.1, res2.2)

/-- Translation of `_extract_limits`. -/
def extractLimits (root : Elem) (sf ea : String) : List Record :=
  (limLoopDatas sf ea (root.findallDesc "data") 0).1

/-- Innermost loop of `_extract_deductibles`. -/
def dedLoopDeds (sf ea : String) (pid lid : Option String) :
    List Elem → Nat → List Record × Nat
  | [], ctr => ([], ctr)
  | ded :: rest, ctr =>
    let did0 := (ded.get "id").getD ""
    if did0 = "" then
      let ctr1 := ctr + 1
      let did := "ded_" ++ pyStr pid ++ "_" ++ pyStr lid ++ "_" ++ natToDec ctr1
      let res := dedLoopDeds sf ea pid lid rest ctr1
      (dedRec did lid pid ded sf ea :: res.1, res.2)
    else
      let res := dedLoopDeds sf ea pid lid rest ctr
      (dedRec did0 lid pid ded sf ea :: res.1, res.2)

/-- Line loop of `_extract_deductibles`. -/
def dedLoopLines (sf ea : String) (pid : Option String) :
    List Elem → Nat → List Record × Nat
  | [], ctr => ([], ctr)
  | line :: rest, ctr =>
    let res1 := dedLoopDeds sf ea pid (line.get "id") (line.findall "deductible") ctr
    let res2 := dedLoopLines sf ea pid rest res1.2
    (res1.1 ++ res2.1, res2.2)

/-- Policy loop of `_extract_deductibles`. -/
def dedLoopPolicies (sf ea : String) : List Elem → Nat → List Record × Nat
  | [], ctr => ([], ctr)
  | policy :: rest, ctr =>
    let res1 := dedLoopLines sf ea (policy.get "id") (policy.findall "line") ctr
    let res2 := dedLoopPolicies sf ea rest res1.2
    (res1.1 ++ res2.1, res2.2)

/-- Data loop of `_extract_deductibles`. -/
def dedLoopDatas (sf ea : String) : List Elem → Nat → List Record × Nat
  | [], ctr => ([], ctr)
  | data :: rest, ctr =>
    let res1 := dedLoopPolicies sf ea (data.findall "policy") ctr
    let res2 := dedLoopDatas sf ea rest res1.2
    (res1.1 ++ res2.1, res2.2)

/-- Translation of `_extract_deductibles`. -/
def extractDeductibles (root : Elem) (sf ea : String) : List Record :=
  (dedLoopDatas sf ea (root.findallDesc "data") 0).1

/-- Translation of `_extract_locations`: the policy id is taken from the FIRST `policy`
child of the `data` element. -/
def extractLocations (root : Elem) (sf ea : String) : List Record :=
  (root.findallDesc "data").flatMap fun data =>
    let pid := (data.find "policy").bind fun p => p.get "id"
    (data.findallDesc "account").flatMap fun account =>
      (account.findall "location").map fun location =>
        locRec (location.get "id") (account.get "id") pid location sf ea

/-- Translation of `_extract_buildings`: direct account children first (taking any id from
the FIRST `location` child of the account), then buildings nested under each
location. -/
def extractBuildings (root : Elem) (sf ea : String) : List Record :=
  (root.findallDesc "data").flatMap fun data =>
    let pid := (data.find "policy").bind fun p => p.get "id"
    (data.findallDesc "account").flatMap fun account =>
      ((account.findall "building").map fun building =>
        let location := account.find "location"
        bldRec (building.get "id") (location.bind fun l => l.get "id") pid sf ea)
      ++ ((account.findall "location").flatMap fun location =>
        (location.findall "building").map fun building =>
          bldRec (building.get "id") (location.get "id") pid sf ea)

/-- Translation of `_extract_occupancies`: same two placements as `_extract_buildings`. -/
def extractOccupancies (root : Elem) (sf ea : String) : List Record :=
  (root.findallDesc "data").flatMap fun data =>
    let pid := (data.find "policy").bind fun p => p.get "id"
    (data.findallDesc "account").flatMap fun account =>
      ((account.findall "occupancy").map fun occupancy =>
        let location := account.find "location"
        occRec (occupancy.get "id") (location.bind fun l => l.get "id") pid sf ea)
      ++ ((account.findall "location").flatMap fun location =>
        (location.findall "occupancy").map fun occupancy =>
          occRec (occupancy.get "id") (location.get "id") pid sf ea)

/-- Translation of `_extract_accounts`. -/
def extractAccounts (root : Elem) (sf ea : String) : List Record :=
  (root.findallDesc "data").flatMap fun data =>
    let pid := (data.find "policy").bind fun p => p.get "id"
    (data.findallDesc "account").map fun account =>
      acctRec (account.get "id") pid account sf ea

/-- Translation of `_extract_addresses`: account-level addresses (null location id) then
location-level addresses. -/
def extractAddresses (root : Elem) (sf ea : String) : List Record :=
  (root.findallDesc "data").flatMap fun data =>
    let pid := (data.find "policy").bind fun p => p.get "id"
    (data.findallDesc "account").flatMap fun account =>
      ((account.findall "address").map fun address =>
        addrRec (address.get "id") Value.null (account.get "id") pid address sf ea)
      ++ ((account.findall "location").flatMap fun location =>
        (location.findall "address").map fun address =>
          addrRec (address.get "id") (strOpt (location.get "id")) (account.get "id") pid
            address sf ea)

/-- Innermost loop of `_extract_underwriter_referrals`. -/
def refLoopRefs (sf ea : String) (pid : Option String) :
    List Elem → Nat → List Record × Nat
  | [], ctr => ([], ctr)
  | referral :: rest, ctr =>
    let rid0 := (referral.get "id").getD ""
    if rid0 = "" then
      let ctr1 := ctr + 1
      let rid := "ref_" ++ pyStr pid ++ "_" ++ natToDec ctr1
      let res := refLoopRefs sf ea pid rest ctr1
      (refRec rid pid sf ea :: res.1, res.2)
    else
      let res := refLoopRefs sf ea pid rest ctr
      (refRec rid0 pid sf ea :: res.1, res.2)

/-- Loop over `policy.findall(".//UnderwriterReferrals")` groups. -/
def refLoopGroups (sf ea : String) (pid : Option String) :
    List Elem → Nat → List Record × Nat
  | [], ctr => ([], ctr)
  | group :: rest, ctr =>
    let res1 := refLoopRefs sf ea pid (group.findall "UnderwriterReferral") ctr
    let res2 := refLoopGroups sf ea pid rest res1.2
    (res1.1 ++ res2.1, res2.2)

/-- Policy loop of `_extract_underwriter_referrals`. -/
def refLoopPolicies (sf ea : String) : List Elem → Nat → List Record × Nat
  | [], ctr => ([], ctr)
  | policy :: rest, ctr =>
    let res1 := refLoopGroups sf ea (policy.get "id")
      (policy.findallDesc "UnderwriterReferrals") ctr
    let res2 := refLoopPolicies sf ea rest res1.2
    (res1.1 ++ res2.1, res2.2)

/-- Data loop of `_extract_underwriter_referrals`. -/
def refLoopDatas (sf ea : String) : List Elem → Nat → List Record × Nat
  | [], ctr => ([], ctr)
  | data :: rest, ctr =>
    let res1 := refLoopPolicies sf ea (data.findall "policy") ctr
    let res2 := refLoopDatas sf ea rest res1.2
    (res1.1 ++ res2.1, res2.2)

/-- Translation of `_extract_underwriter_referrals`. -/
def extractUnderwriterReferrals (root : Elem) (sf ea : String) : List Record :=
  (refLoopDatas sf ea (root.findallDesc "data") 0).1

/-- Policy-level surcharge loop of `_extract_tax_surcharges`: the counter is
incremented for EVERY surcharge node; an explicit id wins via Python `or`. -/
def taxLoopPolicyTaxes (sf ea : String) (pid : Option String) :
    List Elem → Nat → List Record × Nat
  | [], ctr => ([], ctr)
  | tax :: rest, ctr =>
    let ctr1 := ctr + 1
    let tid0 := (tax.get "id").getD ""
    let tid := if tid0 = "" then "tax_" ++ pyStr pid ++ "_" ++ natToDec ctr1 else tid0
    let res := taxLoopPolicyTaxes sf ea pid rest ctr1
    (taxRec tid pid Value.null tax sf ea :: res.1, res.2)

/-- Line-level surcharge loop of `_extract_tax_surcharges`. -/
def taxLoopLineTaxes (sf ea : String) (pid lid : Option String) :
    List Elem → Nat → List Record × Nat
  | [], ctr => ([], ctr)
  | tax :: rest, ctr =>
    let ctr1 := ctr + 1
    let tid0 := (tax.get "id").getD ""
    let tid :=
      if tid0 = "" then "tax_" ++ pyStr pid ++ "_" ++ pyStr lid ++ "_" ++ natToDec ctr1 else tid0
    let res := taxLoopLineTaxes sf ea pid lid rest ctr1
    (taxRec tid pid (strOpt lid) tax sf ea :: res.1, res.2)

/-- Line loop of `_extract_tax_surcharges`. -/
def taxLoopLines (sf ea : String) (pid : Option String) :
    List Elem → Nat → List Record × Nat
  | [], ctr => ([], ctr)
  | line :: rest, ctr =>
    let res1 := taxLoopLineTaxes sf ea pid (line.get "id")
      (line.findall "lineStateTaxSurcharge") ctr
    let res2 := taxLoopLines sf ea pid rest res1.2
    (res1.1 ++ res2.1, res2.2)

/-- Policy loop of `_extract_tax_surcharges`: policy-level surcharges first,
then the line-level ones, sharing one counter. -/
def taxLoopPolicies (sf ea : String) : List Elem → Nat → List Record × Nat
  | [], ctr => ([], ctr)
  | policy :: rest, ctr =>
    let res1 := taxLoopPolicyTaxes sf ea (policy.get "id")
      (policy.findall "stateTaxSurcharge") ctr
    let res2 := taxLoopLines sf ea (policy.get "id") (policy.findall "line") res1.2
    let res3 := taxLoopPolicies sf ea rest res2.2
    (res1.1 ++ res2.1 ++ res3.1, res3.2)

/-- Data loop of `_extract_tax_surcharges`. -/
def taxLoopDatas (sf ea : String) : List Elem → Nat → List Record × Nat
  | [], ctr => ([], ctr)
  | data :: rest, ctr =>
    let res1 := taxLoopPolicies sf ea (data.findall "policy") ctr
    let res2 := taxLoopDatas sf ea rest res1.2
    (res1.1 ++ res2.1, res2.2)

/-- Translation of `_extract_tax_surcharges`. -/
def extractTaxSurcharges (root : Elem) (sf ea : String) : List Record :=
  (taxLoopDatas sf ea (root.findallDesc "data") 0).1

/-! ## Catalog, metadata, and the read interface -/

/-- Translation of `list_tables`: the fixed catalog of 13 table names. -/
def listTables : List String :=
  ["policies", "lines", "coverages", "exposures", "limits", "deductibles",
   "locations", "buildings", "occupancies", "accounts", "addresses",
   "underwriter_referrals", "tax_surcharges"]

/-- The Spark column types used by the connector's schemas. -/
inductive SparkType where
  | string : SparkType
  | double : SparkType
deriving DecidableEq, Repr

/-- A column declaration: name, type, nullable flag. -/
abbrev Column := String × SparkType × Bool

/-- The `schemas` dict of `get_table_schema`. -/
def schemas : List (String × List Column) :=
  [("policies",
    [("policy_id", SparkType.string, false),
     ("session_id", SparkType.string, true),
     ("effective_date", SparkType.string, true),
     ("expiration_date", SparkType.string, true),
     ("term", SparkType.string, true),
     ("line_of_business", SparkType.string, true),
     ("quote_number", SparkType.string, true),
     ("policy_number", SparkType.string, true),
     ("status", SparkType.string, true),
     ("last_transaction_type", SparkType.string, true),
     ("primary_rating_state", SparkType.string, true),
     ("segment", SparkType.string, true),
     ("product", SparkType.string, true),
     ("writing_company", SparkType.string, true),
     ("filing_type", SparkType.string, true),
     ("agency_id", SparkType.string, true),
     ("producer", SparkType.string, true),
     ("premium", SparkType.double, true),
     ("premium_written", SparkType.double, true),
     ("premium_change", SparkType.double, true),
     ("transaction_date", SparkType.string, true),
     ("transaction_sequence_number", SparkType.string, true),
     ("endorsement_number", SparkType.string, true),
     ("term_number", SparkType.string, true),
     ("renewal_type", SparkType.string, true),
     ("cancellation_date", SparkType.string, true),
     ("include_terrorism", SparkType.string, true),
     ("include_gl", SparkType.string, true),
     ("include_property", SparkType.string, true),
     ("source_file", SparkType.string, true),
     ("file_modified_time", SparkType.string, true),
     ("_extracted_at", SparkType.string, false)]),
   ("lines",
    [("line_id", SparkType.string, false),
     ("policy_id", SparkType.string, false),
     ("type", SparkType.string, true),
     ("written", SparkType.double, true),
     ("change", SparkType.double, true),
     ("is_reportable", SparkType.string, true),
     ("is_final_report", SparkType.string, true),
     ("has_earthquake_been_selected", SparkType.string, true),
     ("source_file", SparkType.string, true),
     ("_extracted_at", SparkType.string, false)]),
   ("coverages",
    [("coverage_id", SparkType.string, false),
     ("line_id", SparkType.string, false),
     ("policy_id", SparkType.string, false),
     ("type", SparkType.string, true),
     ("premium", SparkType.double, true),
     ("written", SparkType.double, true),
     ("change", SparkType.double, true),
     ("is_cov_endorsement", SparkType.string, true),
     ("source_file", SparkType.string, true),
     ("_extracted_at", SparkType.string, false)]),
   ("exposures",
    [("exposure_id", SparkType.string, false),
     ("line_id", SparkType.string, false),
     ("policy_id", SparkType.string, false),
     ("type", SparkType.string, true),
     ("i_value", SparkType.string, true),
     ("f_value", SparkType.double, true),
     ("s_value", SparkType.string, true),
     ("source_file", SparkType.string, true),
     ("_extracted_at", SparkType.string, false)]),
   ("limits",
    [("limit_id", SparkType.string, false),
     ("line_id", SparkType.string, false),
     ("policy_id", SparkType.string, false),
     ("type", SparkType.string, true),
     ("amount", SparkType.double, true),
     ("i_value", SparkType.string, true),
     ("f_value", SparkType.double, true),
     ("scope", SparkType.string, true),
     ("source_file", SparkType.string, true),
     ("_extracted_at", SparkType.string, false)]),
   ("deductibles",
    [("deductible_id", SparkType.string, false),
     ("line_id", SparkType.string, false),
     ("policy_id", SparkType.string, false),
     ("type", SparkType.string, true),
     ("amount", SparkType.double, true),
     ("i_value", SparkType.string, true),
     ("f_value", SparkType.double, true),
     ("scope", SparkType.string, true),
     ("source_file", SparkType.string, true),
     ("_extracted_at", SparkType.string, false)]),
   ("locations",
    [("location_id", SparkType.string, false),
     ("account_id", SparkType.string, false),
     ("policy_id", SparkType.string, false),
     ("deleted", SparkType.string, true),
     ("source_file", SparkType.string, true),
     ("_extracted_at", SparkType.string, false)]),
   ("buildings",
    [("building_id", SparkType.string, false),
     ("location_id", SparkType.string, false),
     ("policy_id", SparkType.string, false),
     ("source_file", SparkType.string, true),
     ("_extracted_at", SparkType.string, false)]),
   ("occupancies",
    [("occupancy_id", SparkType.string, false),
     ("location_id", SparkType.string, false),
     ("policy_id", SparkType.string, false),
     ("source_file", SparkType.string, true),
     ("_extracted_at", SparkType.string, false)]),
   ("accounts",
    [("account_id", SparkType.string, false),
     ("policy_id", SparkType.string, false),
     ("name", SparkType.string, true),
     ("dba", SparkType.string, true),
     ("entity_type", SparkType.string, true),
     ("brief_description", SparkType.string, true),
     ("primary_phone", SparkType.string, true),
     ("fax", SparkType.string, true),
     ("email", SparkType.string, true),
     ("same_as_mailing_address", SparkType.string, true),
     ("sic_code", SparkType.string, true),
     ("source_file", SparkType.string, true),
     ("_extracted_at", SparkType.string, false)]),
   ("addresses",
    [("address_id", SparkType.string, false),
     ("location_id", SparkType.string, true),
     ("account_id", SparkType.string, true),
     ("policy_id", SparkType.string, false),
     ("latitude", SparkType.string, true),
     ("longitude", SparkType.string, true),
     ("last_verified", SparkType.string, true),
     ("source_file", SparkType.string, true),
     ("_extracted_at", SparkType.string, false)]),
   ("underwriter_referrals",
    [("referral_id", SparkType.string, false),
     ("policy_id", SparkType.string, false),
     ("source_file", SparkType.string, true),
     ("_extracted_at", SparkType.string, false)]),
   ("tax_surcharges",
    [("tax_surcharge_id", SparkType.string, false),
     ("policy_id", SparkType.string, false),
     ("line_id", SparkType.string, true),
     ("tax_state", SparkType.string, true),
     ("amount", SparkType.double, true),
     ("written", SparkType.double, true),
     ("change", SparkType.double, true),
     ("type", SparkType.string, true),
     ("source_file", SparkType.string, true),
     ("_extracted_at", SparkType.string, false)])]

/-- Translation of `get_table_schema`: schema lookup, raising `ValueError("Unknown table: ...")`
for a name outside the catalog (modelled as `Except.error`). -/
def getTableSchema (tableName : String) : Except String (List Column) :=
  match schemas.lookup tableName with
  | some s => Except.ok s
  | none => Except.error ("Unknown table: " ++ tableName)

/-- The per-table metadata returned by `read_table_metadata`. -/
structure TableMetadata where
  primary_keys : List String
  cursor_field : String
  ingestion_type : String
deriving DecidableEq, Repr

/-- The `metadata` dict of `read_table_metadata`. -/
def metadataTable : List (String × TableMetadata) :=
  [("policies", ⟨["policy_id"], "file_modified_time", "cdc"⟩),
   ("lines", ⟨["line_id", "policy_id"], "_extracted_at", "cdc"⟩),
   ("coverages", ⟨["coverage_id", "line_id", "policy_id"], "_extracted_at", "cdc"⟩),
   ("exposures", ⟨["exposure_id", "line_id", "policy_id"], "_extracted_at", "cdc"⟩),
   ("limits", ⟨["limit_id", "line_id", "policy_id"], "_extracted_at", "cdc"⟩),
   ("deductibles", ⟨["deductible_id", "line_id", "policy_id"], "_extracted_at", "cdc"⟩),
   ("locations", ⟨["location_id", "policy_id"], "_extracted_at", "cdc"⟩),
   ("buildings", ⟨["building_id", "location_id", "policy_id"], "_extracted_at", "cdc"⟩),
   ("occupancies", ⟨["occupancy_id", "location_id", "policy_id"], "_extracted_at", "cdc"⟩),
   ("accounts", ⟨["account_id", "policy_id"], "_extracted_at", "cdc"⟩),
   ("addresses", ⟨["address_id", "policy_id"], "_extracted_at", "cdc"⟩),
   ("underwriter_referrals", ⟨["referral_id", "policy_id"], "_extracted_at", "cdc"⟩),
   ("tax_surcharges", ⟨["tax_surcharge_id", "policy_id"], "_extracted_at", "cdc"⟩)]

/-- Translation of `read_table_metadata`: metadata lookup, raising
`ValueError("Unknown table: ...")` outside the catalog. -/
def readTableMetadata (tableName : String) : Except String TableMetadata :=
  match metadataTable.lookup tableName with
  | some m => Except.ok m
  | none => Except.error ("Unknown table: " ++ tableName)

/-- A file visible to a read call: path, modification time (ISO string), and
the outcome of `ET.parse` on it (`none` models an `ET.ParseError`). -/
abbrev FileData := String × String × Option Elem

/-- One file's contribution inside `_extract_table_records`: the
`if/elif` dispatch on the table name.  An unknown table name matches no
branch and contributes nothing. -/
def extractOne (tableName : String) (root : Elem) (sf mt ea : String) : List Record :=
  if tableName = "policies" then extractPolicies root sf mt ea
  else if tableName = "lines" then extractLines root sf ea
  else if tableName = "coverages" then extractCoverages root sf ea
  else if tableName = "exposures" then extractExposures root sf ea
  else if tableName = "limits" then extractLimits root sf ea
  else if tableName = "deductibles" then extractDeductibles root sf ea
  else if tableName = "locations" then extractLocations root sf ea
  else if tableName = "buildings" then extractBuildings root sf ea
  else if tableName = "occupancies" then extractOccupancies root sf ea
  else if tableName = "accounts" then extractAccounts root sf ea
  else if tableName = "addresses" then extractAddresses root sf ea
  else if tableName = "underwriter_referrals" then extractUnderwriterReferrals root sf ea
  else if tableName = "tax_surcharges" then extractTaxSurcharges root sf ea
  else []

/-- Translation of `_extract_table_records`: parse each selected file; on `ET.ParseError`
(`none` content) print a diagnostic and continue with the next file.  The
extraction timestamp `ea` models the single `datetime.utcnow()` call made at
the start of the method. -/
def extractTableRecords (tableName : String) (files : List FileData) (ea : String) :
    List Record :=
  files.flatMap fun f =>
    match f.2.2 with
    | none => []
    | some root => extractOne tableName root (basename f.1) f.2.1 ea

/-- The selection condition of `read_table`:
`if not last_modified_time or file_mtime > last_modified_time`. -/
def qualifies (wm : String) (f : FileData) : Bool :=
  wm == "" || pyStrLt wm f.2.1

/-- The selection loop body of `read_table`: append a qualifying file to
`files_to_process` and raise `max_modified_time` when the file is newer. -/
def selStep (wm : String) (acc : List FileData × String) (f : FileData) :
    List FileData × String :=
  if qualifies wm f then
    (acc.1 ++ [f], if pyStrLt acc.2 f.2.1 then f.2.1 else acc.2)
  else acc

/-- The selection loop of `read_table`: walks the file list accumulating
`files_to_process` and `max_modified_time` (which starts at the incoming
watermark). -/
def selectAndMax (wm : String) (world : List FileData) : List FileData × String :=
  world.foldl (selStep wm) ([], wm)

/-- Translation of `read_table`: returns the extracted records and the new offset.  When the
directory holds no files at all, the incoming watermark is returned
unchanged (the early `return` of the source). -/
def readTable (tableName : String) (wm : String) (world : List FileData) (ea : String) :
    List Record × String :=
  if world.isEmpty then ([], wm)
  else
    let sel := selectAndMax wm world
    (extractTableRecords tableName sel.1 ea, sel.2)

/-- Erase the call-scoped extraction timestamp from a record, leaving every
other field (all primary keys and foreign keys among them) intact. -/
def scrub (r : Record) : Record :=
  r.map fun kv => if kv.1 = "_extracted_at" then (kv.1, Value.null) else kv

/-- The per-policy step of `_extract_tax_surcharges`: policy-level surcharges
followed by line-level surcharges, one shared counter. -/
def taxPolicyStep (sf ea : String) (x : Elem) (c : Nat) : List Record × Nat :=
  let res1 := taxLoopPolicyTaxes sf ea (x.get "id") (x.findall "stateTaxSurcharge") c
  let res2 := taxLoopLines sf ea (x.get "id") (x.findall "line") res1.2
  (res1.1 ++ res2.1, res2.2)

/-- A coverage node with no `id` attribute. -/
def covNoId : Elem := Elem.mk "coverage" [] none []

/-- A line `L1` holding one identifier-less coverage. -/
def lineL1 : Elem := Elem.mk "line" [("id", "L1")] none [covNoId]

/-- A policy `P1` holding line `L1`. -/
def policyP1 : Elem := Elem.mk "policy" [("id", "P1")] none [lineL1]

/-- A session document with one data wrapper and policy `P1`. -/
def docA : Elem :=
  Elem.mk "session" [("id", "S1")] none [Elem.mk "data" [] none [policyP1]]

/-- The `max_modified_time` update of the selection loop. -/
def maxStep (m : String) (f : FileData) : String :=
  if pyStrLt m f.2.1 then f.2.1 else m

/-- The same update on bare modification times. -/
def mtMaxStep (m t : String) : String :=
  if pyStrLt m t then t else m

/-- The coverage nodes visited by `_extract_coverages`, in visit order. -/
def covNodes (root : Elem) : List Elem :=
  (root.findallDesc "data").flatMap fun data =>
    (data.findall "policy").flatMap fun policy =>
      (policy.findall "line").flatMap fun line => line.findall "coverage"

/-- The primary-key tuple of a record, as declared by the metadata
interface for the given table. -/
def pkProj (tableName : String) (r : Record) : List (Option Value) :=
  match readTableMetadata tableName with
  | Except.ok m => m.primary_keys.map fun k => List.lookup k r
  | Except.error _ => []

/-- Concrete file entry: parses to `docA`, modification time `t1`. -/
def fileA : FileData := ("dir/a.xml", "t1", some docA)

/-- Concrete file entry with the same document content, time `t2`. -/
def fileB : FileData := ("dir/b.xml", "t2", some docA)

/-- A concrete two-file world. -/
def world0 : List FileData := [fileA, fileB]

/-- A world holding one well-formed file and one file that fails to parse. -/
def worldMix : List FileData := [fileA, ("dir/bad.xml", "t3", none)]

/-- A building with an explicit id, placed directly under an account. -/
def bldB1 : Elem := Elem.mk "building" [("id", "B1")] none []

/-- A building nested under a location. -/
def bldB2 : Elem := Elem.mk "building" [("id", "B2")] none []

/-- A location `LOC1` holding building `B2`. -/
def locLOC1 : Elem := Elem.mk "location" [("id", "LOC1")] none [bldB2]

/-- An account holding a location child AND a direct-child building. -/
def acctA1 : Elem := Elem.mk "account" [("id", "A1")] none [locLOC1, bldB1]

/-- Document for claim C3: an account that has both a location child and a
building as a direct child. -/
def docC3 : Elem :=
  Elem.mk "session" [] none
    [Elem.mk "data" [] none [Elem.mk "policy" [("id", "P1")] none [], acctA1]]

/-- A line whose `written` and `change` are attributes on the node itself. -/
def lineC4 : Elem :=
  Elem.mk "line" [("id", "L1"), ("written", "100.5"), ("change", "abc")] none []

/-- Document for claim C4. -/
def docC4 : Elem :=
  Elem.mk "session" [] none
    [Elem.mk "data" [] none [Elem.mk "policy" [("id", "P1")] none [lineC4]]]

/-- Document for claim C5: one data element holding two policies, each with
its own account. -/
def docC5 : Elem :=
  Elem.mk "session" [] none
    [Elem.mk "data" [] none
      [Elem.mk "policy" [("id", "P1")] none [Elem.mk "account" [("id", "A1")] none []],
       Elem.mk "policy" [("id", "P2")] none [Elem.mk "account" [("id", "A2")] none []]]]

/-- Canonical single-account wrapper document: one session, one data
element holding one policy (with the given id) and the given account
subtree; used to state per-account properties of the building and occupancy
extractors for an ARBITRARY account element. -/
def acctDoc (pid : String) (acct : Elem) : Elem :=
  Elem.mk "session" [] none
    [Elem.mk "data" [] none [Elem.mk "policy" [("id", pid)] none [], acct]]

/-- An account holding one location that contains a building, an occupancy
and an address. -/
def acctFull (a l b o ad : String) : Elem :=
  Elem.mk "account" [("id", a)] none
    [Elem.mk "location" [("id", l)] none
       [Elem.mk "building" [("id", b)] none [],
        Elem.mk "occupancy" [("id", o)] none [],
        Elem.mk "address" [("id", ad)] none []]]

/-- Document with one data element holding two policies, each with a full
account subtree (location, building, occupancy, address). -/
def docC5b : Elem :=
  Elem.mk "session" [] none
    [Elem.mk "data" [] none
      [Elem.mk "policy" [("id", "P1")] none [acctFull "A1" "L1" "B1" "O1" "AD1"],
       Elem.mk "policy" [("id", "P2")] none [acctFull "A2" "L2" "B2" "O2" "AD2"]]]

/-- Document whose data element has an account but no policy child at all. -/
def docNoPolicy : Elem :=
  Elem.mk "session" [] none
    [Elem.mk "data" [] none
      [Elem.mk "account" [("id", "A1")] none
        [Elem.mk "location" [("id", "L1")] none []]]]

/-! ## Order facts about the Python string comparison -/

theorem lexLt_irrefl (l : List Char) : lexLt l l = false := by
  induction l with
  | nil => rfl
  | cons c cs ih => simp [lexLt, ih]

theorem lexLt_trans : ∀ {a b c : List Char},
    lexLt a b = true → lexLt b c = true → lexLt a c = true
  | [], [], _, h1, _ => by simp [lexLt] at h1
  | [], _ :: _, [], _, h2 => by simp [lexLt] at h2
  | [], _ :: _, _ :: _, _, _ => by simp [lexLt]
  | _ :: _, [], _, h1, _ => by simp [lexLt] at h1
  | _ :: _, _ :: _, [], _, h2 => by simp [lexLt] at h2
  | a :: as, b :: bs, c :: cs, h1, h2 => by
    simp only [lexLt] at h1 h2 ⊢
    split at h1
    next hab =>
      split at h2
      next hbc => rw [if_pos (by omega)]
      next hbc =>
        split at h2
        next hcb => exact absurd h2 (by simp)
        next hcb => rw [if_pos (by omega)]
    next hab =>
      split at h1
      next hba => exact absurd h1 (by simp)
      next hba =>
        split at h2
        next hbc => rw [if_pos (by omega)]
        next hbc =>
          split at h2
          next hcb => exact absurd h2 (by simp)
          next hcb =>
            rw [if_neg (by omega), if_neg (by omega)]
            exact lexLt_trans h1 h2

theorem lexLt_eq_of_not_lt : ∀ {a b : List Char},
    lexLt a b = false → lexLt b a = false → a = b
  | [], [], _, _ => rfl
  | [], _ :: _, h1, _ => by simp [lexLt] at h1
  | _ :: _, [], _, h2 => by simp [lexLt] at h2
  | a :: as, b :: bs, h1, h2 => by
    simp only [lexLt] at h1 h2
    split at h1
    next hab => exact absurd h1 (by simp)
    next hab =>
      split at h1
      next hba =>
        rw [if_pos hba] at h2
        exact absurd h2 (by simp)
      next hba =>
        have hv : a.toNat = b.toNat := by omega
        have hc : a = b := Char.ext (UInt32.ext hv)
        subst hc
        rw [if_neg hab, if_neg hba] at h2
        rw [lexLt_eq_of_not_lt h1 h2]

theorem pyStrLt_irrefl (s : String) : pyStrLt s s = false := lexLt_irrefl s.data

theorem pyStrLt_trans {a b c : String} (h1 : pyStrLt a b = true)
    (h2 : pyStrLt b c = true) : pyStrLt a c = true := lexLt_trans h1 h2

theorem pyStrLt_eq_of_not_lt {a b : String} (h1 : pyStrLt a b = false)
    (h2 : pyStrLt b a = false) : a = b := by
  cases a with
  | mk da =>
    cases b with
    | mk db => exact congrArg String.mk (lexLt_eq_of_not_lt h1 h2)

theorem pyStrLt_asymm {a b : String} (h : pyStrLt a b = true) : pyStrLt b a = false := by
  by_contra hc
  have hba : pyStrLt b a = true := by
    cases hx : pyStrLt b a with
    | false => exact absurd hx hc
    | true => rfl
  have := pyStrLt_trans h hba
  rw [pyStrLt_irrefl] at this
  exact absurd this (by simp)

/-- Transitivity of Python `>=` on strings, phrased on the negation of `<`. -/
theorem pyStrGe_trans {a b c : String} (h1 : pyStrLt b a = false)
    (h2 : pyStrLt c b = false) : pyStrLt c a = false := by
  cases hx : pyStrLt c a with
  | false => rfl
  | true =>
    cases hy : pyStrLt a b with
    | false =>
      have hab := pyStrLt_eq_of_not_lt hy h1
      subst hab
      rw [hx] at h2
      exact absurd h2 (by simp)
    | true =>
      have hcb := pyStrLt_trans hx hy
      rw [hcb] at h2
      exact absurd h2 (by simp)

/-- A strictly larger element stays at least as large as anything the smaller
one already dominated. -/
theorem pyStrGe_of_lt_of_ge {acc m wm : String} (h1 : pyStrLt acc m = true)
    (h2 : pyStrLt acc wm = false) : pyStrLt m wm = false := by
  cases hx : pyStrLt m wm with
  | false => rfl
  | true =>
    have := pyStrLt_trans h1 hx
    rw [this] at h2
    exact absurd h2 (by simp)

/-- Nothing is lexicographically below the empty string. -/
theorem pyStrLt_empty (s : String) : pyStrLt s "" = false := by
  cases s with
  | mk d => cases d <;> rfl

/-! ## Facts about the decimal rendering of counters -/

theorem decDigit_mem (n : Nat) :
    decDigit n ∈ ['0', '1', '2', '3', '4', '5', '6', '7', '8', '9'] := by
  unfold decDigit
  split <;> simp

theorem decDigit_ne_underscore (n : Nat) : decDigit n ≠ '_' := by
  have h := decDigit_mem n
  intro he
  rw [he] at h
  simp at h

theorem natToDecAux_no_underscore (n : Nat) : ∀ c ∈ natToDecAux n, c ≠ '_' := by
  induction n using Nat.strong_induction_on with
  | _ n ih =>
    rw [natToDecAux]
    split
    next =>
      intro c hc
      rw [List.mem_singleton] at hc
      rw [hc]
      exact decDigit_ne_underscore n
    next h =>
      intro c hc
      rcases List.mem_append.mp hc with hc1 | hc1
      · exact ih (n / 10) (Nat.div_lt_self (by omega) (by omega)) c hc1
      · rw [List.mem_singleton] at hc1
        rw [hc1]
        exact decDigit_ne_underscore (n % 10)

theorem digitVal_decDigit (m : Nat) (h : m < 10) : digitVal (decDigit m) = m := by
  interval_cases m <;> decide

theorem digitsVal_append_one (l : List Char) (c : Char) :
    digitsVal (l ++ [c]) = 10 * digitsVal l + digitVal c := by
  simp [digitsVal, List.foldl_append]

theorem digitsVal_natToDecAux (n : Nat) : digitsVal (natToDecAux n) = n := by
  induction n using Nat.strong_induction_on with
  | _ n ih =>
    rw [natToDecAux]
    split
    next h =>
      simp [digitsVal, digitVal_decDigit n h]
    next h =>
      rw [digitsVal_append_one, ih (n / 10) (Nat.div_lt_self (by omega) (by omega)),
        digitVal_decDigit _ (Nat.mod_lt _ (by omega))]
      omega

theorem natToDecAux_inj {m n : Nat} (h : natToDecAux m = natToDecAux n) : m = n := by
  have hm := digitsVal_natToDecAux m
  rw [h, digitsVal_natToDecAux] at hm
  exact hm.symm

/-- The fuel-driven renderer agrees with the well-founded one whenever the
fuel is sufficient. -/
theorem natToDecCore_eq_aux : ∀ (fuel n : Nat), n ≤ fuel → natToDecCore fuel n = natToDecAux n := by
  intro fuel
  induction fuel with
  | zero =>
    intro n hn
    have : n = 0 := by omega
    subst this
    rw [natToDecAux]
    rfl
  | succ fuel ih =>
    intro n hn
    rw [natToDecCore, natToDecAux]
    split
    next => rfl
    next h =>
      rw [ih (n / 10) (by omega)]

/-- Splitting two equal strings at an underscore: when both suffixes are
underscore-free, they agree. -/
theorem underscore_split : ∀ {p1 p2 s1 s2 : List Char},
    (∀ c ∈ s1, c ≠ '_') → (∀ c ∈ s2, c ≠ '_') →
    p1 ++ '_' :: s1 = p2 ++ '_' :: s2 → s1 = s2
  | [], [], s1, s2, _, _, h => by
    simpa using h
  | [], c :: p2, s1, s2, h1, _, h => by
    simp only [List.nil_append, List.cons_append, List.cons.injEq] at h
    have hm : '_' ∈ s1 := by
      rw [h.2]
      exact List.mem_append_right p2 (List.mem_cons_self '_' s2)
    exact absurd rfl (h1 '_' hm)
  | c :: p1, [], s1, s2, _, h2, h => by
    simp only [List.nil_append, List.cons_append, List.cons.injEq] at h
    have hm : '_' ∈ s2 := by
      rw [← h.2]
      exact List.mem_append_right p1 (List.mem_cons_self '_' s1)
    exact absurd rfl (h2 '_' hm)
  | c :: p1, d :: p2, s1, s2, h1, h2, h => by
    simp only [List.cons_append, List.cons.injEq] at h
    exact underscore_split h1 h2 h.2

/-- Two synthesized identifiers with distinct counter values differ, whatever
their ancestor-id prefixes are: the counter is the segment after the last
underscore. -/
theorem synth_ne_of_ctr_ne {p1 p2 : String} {k1 k2 : Nat} (h : k1 ≠ k2) :
    p1 ++ "_" ++ natToDec k1 ≠ p2 ++ "_" ++ natToDec k2 := by
  intro he
  apply h
  have hd : p1.data ++ '_' :: natToDecAux k1 = p2.data ++ '_' :: natToDecAux k2 := by
    have hdd := congrArg String.data he
    simpa [String.data_append, natToDec, natToDecCore_eq_aux k1 k1 le_rfl,
      natToDecCore_eq_aux k2 k2 le_rfl] using hdd
  exact natToDecAux_inj
    (underscore_split (natToDecAux_no_underscore k1) (natToDecAux_no_underscore k2) hd)

/-- Sanity: the decimal rendering agrees with the standard library one on
sample values. -/
theorem natToDec_sanity :
    natToDec 1 = Nat.repr 1 ∧ natToDec 42 = Nat.repr 42 ∧ natToDec 100 = Nat.repr 100 := by
  refine ⟨?_, ?_, ?_⟩ <;> decide

/-! ## Time-independence of extraction: everything except the stamp -/

theorem lookup_scrub (k : String) (hk : ¬ k = "_extracted_at") (r : Record) :
    List.lookup k (scrub r) = List.lookup k r := by
  induction r with
  | nil => rfl
  | cons kv r ih =>
    obtain ⟨a, b⟩ := kv
    have hs : scrub ((a, b) :: r)
        = (if a = "_extracted_at" then (a, Value.null) else (a, b)) :: scrub r := rfl
    rw [hs]
    by_cases h : a = "_extracted_at"
    · subst h
      rw [if_pos rfl]
      have hbeq : (k == "_extracted_at") = false := beq_eq_false_iff_ne.mpr hk
      rw [List.lookup, List.lookup, hbeq]
      exact ih
    · rw [if_neg h, List.lookup, List.lookup]
      cases hka : k == a with
      | false =>
        simp only
        exact ih
      | true => simp only

/-- Generic step lemma for the middle loops of the counter-threaded
extractors: if the inner walk produces scrub-equal records and equal final
counters for the two timestamps, so does the loop over a list of nodes. -/
theorem scrub_level {F1 F2 : List Elem → Nat → List Record × Nat}
    {g1 g2 : Elem → Nat → List Record × Nat}
    (s1 : ∀ x rest c, F1 (x :: rest) c
      = ((g1 x c).1 ++ (F1 rest (g1 x c).2).1, (F1 rest (g1 x c).2).2))
    (s2 : ∀ x rest c, F2 (x :: rest) c
      = ((g2 x c).1 ++ (F2 rest (g2 x c).2).1, (F2 rest (g2 x c).2).2))
    (e1 : ∀ c, F1 [] c = ([], c)) (e2 : ∀ c, F2 [] c = ([], c))
    (hg : ∀ x c, (g1 x c).1.map scrub = (g2 x c).1.map scrub ∧ (g1 x c).2 = (g2 x c).2) :
    ∀ l c, ((F1 l c).1.map scrub = (F2 l c).1.map scrub) ∧ (F1 l c).2 = (F2 l c).2 := by
  intro l
  induction l with
  | nil =>
    intro c
    rw [e1, e2]
    exact ⟨rfl, rfl⟩
  | cons x rest ih =>
    intro c
    rw [s1, s2]
    obtain ⟨hg1, hg2⟩ := hg x c
    obtain ⟨ih1, ih2⟩ := ih (g1 x c).2
    rw [← hg2]
    exact ⟨by rw [List.map_append, List.map_append, hg1, ih1], ih2⟩

theorem scrub_covLoopCovs (sf ea1 ea2 : String) (pid lid : Option String) :
    ∀ l c, ((covLoopCovs sf ea1 pid lid l c).1.map scrub
        = (covLoopCovs sf ea2 pid lid l c).1.map scrub)
      ∧ (covLoopCovs sf ea1 pid lid l c).2 = (covLoopCovs sf ea2 pid lid l c).2 := by
  intro l
  induction l with
  | nil => intro c; exact ⟨rfl, rfl⟩
  | cons cov rest ih =>
    intro c
    simp only [covLoopCovs]
    by_cases h : ((cov.get "id").getD "") = ""
    · simp only [if_pos h]
      obtain ⟨ih1, ih2⟩ := ih (c + 1)
      refine ⟨?_, ih2⟩
      simp only [List.map_cons, ih1]
      rfl
    · simp only [if_neg h]
      obtain ⟨ih1, ih2⟩ := ih c
      refine ⟨?_, ih2⟩
      simp only [List.map_cons, ih1]
      rfl

theorem scrub_covLoopLines (sf ea1 ea2 : String) (pid : Option String) :
    ∀ l c, ((covLoopLines sf ea1 pid l c).1.map scrub
        = (covLoopLines sf ea2 pid l c).1.map scrub)
      ∧ (covLoopLines sf ea1 pid l c).2 = (covLoopLines sf ea2 pid l c).2 :=
  scrub_level (fun _ _ _ => rfl) (fun _ _ _ => rfl) (fun _ => rfl) (fun _ => rfl)
    (fun x c => scrub_covLoopCovs sf ea1 ea2 pid (x.get "id") (x.findall "coverage") c)

theorem scrub_covLoopPolicies (sf ea1 ea2 : String) :
    ∀ l c, ((covLoopPolicies sf ea1 l c).1.map scrub = (covLoopPolicies sf ea2 l c).1.map scrub)
      ∧ (covLoopPolicies sf ea1 l c).2 = (covLoopPolicies sf ea2 l c).2 :=
  scrub_level (fun _ _ _ => rfl) (fun _ _ _ => rfl) (fun _ => rfl) (fun _ => rfl)
    (fun x c => scrub_covLoopLines sf ea1 ea2 (x.get "id") (x.findall "line") c)

theorem scrub_covLoopDatas (sf ea1 ea2 : String) :
    ∀ l c, ((covLoopDatas sf ea1 l c).1.map scrub = (covLoopDatas sf ea2 l c).1.map scrub)
      ∧ (covLoopDatas sf ea1 l c).2 = (covLoopDatas sf ea2 l c).2 :=
  scrub_level (fun _ _ _ => rfl) (fun _ _ _ => rfl) (fun _ => rfl) (fun _ => rfl)
    (fun x c => scrub_covLoopPolicies sf ea1 ea2 (x.findall "policy") c)

theorem scrub_expLoopExps (sf ea1 ea2 : String) (pid lid : Option String) :
    ∀ l c, ((expLoopExps sf ea1 pid lid l c).1.map scrub
        = (expLoopExps sf ea2 pid lid l c).1.map scrub)
      ∧ (expLoopExps sf ea1 pid lid l c).2 = (expLoopExps sf ea2 pid lid l c).2 := by
  intro l
  induction l with
  | nil => intro c; exact ⟨rfl, rfl⟩
  | cons exp rest ih =>
    intro c
    simp only [expLoopExps]
    by_cases h : ((exp.get "id").getD "") = ""
    · simp only [if_pos h]
      obtain ⟨ih1, ih2⟩ := ih (c + 1)
      refine ⟨?_, ih2⟩
      simp only [List.map_cons, ih1]
      rfl
    · simp only [if_neg h]
      obtain ⟨ih1, ih2⟩ := ih c
      refine ⟨?_, ih2⟩
      simp only [List.map_cons, ih1]
      rfl

theorem scrub_expLoopLines (sf ea1 ea2 : String) (pid : Option String) :
    ∀ l c, ((expLoopLines sf ea1 pid l c).1.map scrub
        = (expLoopLines sf ea2 pid l c).1.map scrub)
      ∧ (expLoopLines sf ea1 pid l c).2 = (expLoopLines sf ea2 pid l c).2 :=
  scrub_level (fun _ _ _ => rfl) (fun _ _ _ => rfl) (fun _ => rfl) (fun _ => rfl)
    (fun x c => scrub_expLoopExps sf ea1 ea2 pid (x.get "id") (x.findall "exposure") c)

theorem scrub_expLoopPolicies (sf ea1 ea2 : String) :
    ∀ l c, ((expLoopPolicies sf ea1 l c).1.map scrub = (expLoopPolicies sf ea2 l c).1.map scrub)
      ∧ (expLoopPolicies sf ea1 l c).2 = (expLoopPolicies sf ea2 l c).2 :=
  scrub_level (fun _ _ _ => rfl) (fun _ _ _ => rfl) (fun _ => rfl) (fun _ => rfl)
    (fun x c => scrub_expLoopLines sf ea1 ea2 (x.get "id") (x.findall "line") c)

theorem scrub_expLoopDatas (sf ea1 ea2 : String) :
    ∀ l c, ((expLoopDatas sf ea1 l c).1.map scrub = (expLoopDatas sf ea2 l c).1.map scrub)
      ∧ (expLoopDatas sf ea1 l c).2 = (expLoopDatas sf ea2 l c).2 :=
  scrub_level (fun _ _ _ => rfl) (fun _ _ _ => rfl) (fun _ => rfl) (fun _ => rfl)
    (fun x c => scrub_expLoopPolicies sf ea1 ea2 (x.findall "policy") c)

theorem scrub_limLoopLims (sf ea1 ea2 : String) (pid lid : Option String) :
    ∀ l c, ((limLoopLims sf ea1 pid lid l c).1.map scrub
        = (limLoopLims sf ea2 pid lid l c).1.map scrub)
      ∧ (limLoopLims sf ea1 pid lid l c).2 = (limLoopLims sf ea2 pid lid l c).2 := by
  intro l
  induction l with
  | nil => intro c; exact ⟨rfl, rfl⟩
  | cons lim rest ih =>
    intro c
    simp only [limLoopLims]
    by_cases h : ((lim.get "id").getD "") = ""
    · simp only [if_pos h]
      obtain ⟨ih1, ih2⟩ := ih (c + 1)
      refine ⟨?_, ih2⟩
      simp only [List.map_cons, ih1]
      rfl
    · simp only [if_neg h]
      obtain ⟨ih1, ih2⟩ := ih c
      refine ⟨?_, ih2⟩
      simp only [List.map_cons, ih1]
      rfl

theorem scrub_limLoopLines (sf ea1 ea2 : String) (pid : Option String) :
    ∀ l c, ((limLoopLines sf ea1 pid l c).1.map scrub
        = (limLoopLines sf ea2 pid l c).1.map scrub)
      ∧ (limLoopLines sf ea1 pid l c).2 = (limLoopLines sf ea2 pid l c).2 :=
  scrub_level (fun _ _ _ => rfl) (fun _ _ _ => rfl) (fun _ => rfl) (fun _ => rfl)
    (fun x c => scrub_limLoopLims sf ea1 ea2 pid (x.get "id") (x.findall "limit") c)

theorem scrub_limLoopPolicies (sf ea1 ea2 : String) :
    ∀ l c, ((limLoopPolicies sf ea1 l c).1.map scrub = (limLoopPolicies sf ea2 l c).1.map scrub)
      ∧ (limLoopPolicies sf ea1 l c).2 = (limLoopPolicies sf ea2 l c).2 :=
  scrub_level (fun _ _ _ => rfl) (fun _ _ _ => rfl) (fun _ => rfl) (fun _ => rfl)
    (fun x c => scrub_limLoopLines sf ea1 ea2 (x.get "id") (x.findall "line") c)

theorem scrub_limLoopDatas (sf ea1 ea2 : String) :
    ∀ l c, ((limLoopDatas sf ea1 l c).1.map scrub = (limLoopDatas sf ea2 l c).1.map scrub)
      ∧ (limLoopDatas sf ea1 l c).2 = (limLoopDatas sf ea2 l c).2 :=
  scrub_level (fun _ _ _ => rfl) (fun _ _ _ => rfl) (fun _ => rfl) (fun _ => rfl)
    (fun x c => scrub_limLoopPolicies sf ea1 ea2 (x.findall "policy") c)

theorem scrub_dedLoopDeds (sf ea1 ea2 : String) (pid lid : Option String) :
    ∀ l c, ((dedLoopDeds sf ea1 pid lid l c).1.map scrub
        = (dedLoopDeds sf ea2 pid lid l c).1.map scrub)
      ∧ (dedLoopDeds sf ea1 pid lid l c).2 = (dedLoopDeds sf ea2 pid lid l c).2 := by
  intro l
  induction l with
  | nil => intro c; exact ⟨rfl, rfl⟩
  | cons ded rest ih =>
    intro c
    simp only [dedLoopDeds]
    by_cases h : ((ded.get "id").getD "") = ""
    · simp only [if_pos h]
      obtain ⟨ih1, ih2⟩ := ih (c + 1)
      refine ⟨?_, ih2⟩
      simp only [List.map_cons, ih1]
      rfl
    · simp only [if_neg h]
      obtain ⟨ih1, ih2⟩ := ih c
      refine ⟨?_, ih2⟩
      simp only [List.map_cons, ih1]
      rfl

theorem scrub_dedLoopLines (sf ea1 ea2 : String) (pid : Option String) :
    ∀ l c, ((dedLoopLines sf ea1 pid l c).1.map scrub
        = (dedLoopLines sf ea2 pid l c).1.map scrub)
      ∧ (dedLoopLines sf ea1 pid l c).2 = (dedLoopLines sf ea2 pid l c).2 :=
  scrub_level (fun _ _ _ => rfl) (fun _ _ _ => rfl) (fun _ => rfl) (fun _ => rfl)
    (fun x c => scrub_dedLoopDeds sf ea1 ea2 pid (x.get "id") (x.findall "deductible") c)

theorem scrub_dedLoopPolicies (sf ea1 ea2 : String) :
    ∀ l c, ((dedLoopPolicies sf ea1 l c).1.map scrub = (dedLoopPolicies sf ea2 l c).1.map scrub)
      ∧ (dedLoopPolicies sf ea1 l c).2 = (dedLoopPolicies sf ea2 l c).2 :=
  scrub_level (fun _ _ _ => rfl) (fun _ _ _ => rfl) (fun _ => rfl) (fun _ => rfl)
    (fun x c => scrub_dedLoopLines sf ea1 ea2 (x.get "id") (x.findall "line") c)

theorem scrub_dedLoopDatas (sf ea1 ea2 : String) :
    ∀ l c, ((dedLoopDatas sf ea1 l c).1.map scrub = (dedLoopDatas sf ea2 l c).1.map scrub)
      ∧ (dedLoopDatas sf ea1 l c).2 = (dedLoopDatas sf ea2 l c).2 :=
  scrub_level (fun _ _ _ => rfl) (fun _ _ _ => rfl) (fun _ => rfl) (fun _ => rfl)
    (fun x c => scrub_dedLoopPolicies sf ea1 ea2 (x.findall "policy") c)

theorem scrub_refLoopRefs (sf ea1 ea2 : String) (pid : Option String) :
    ∀ l c, ((refLoopRefs sf ea1 pid l c).1.map scrub
        = (refLoopRefs sf ea2 pid l c).1.map scrub)
      ∧ (refLoopRefs sf ea1 pid l c).2 = (refLoopRefs sf ea2 pid l c).2 := by
  intro l
  induction l with
  | nil => intro c; exact ⟨rfl, rfl⟩
  | cons referral rest ih =>
    intro c
    simp only [refLoopRefs]
    by_cases h : ((referral.get "id").getD "") = ""
    · simp only [if_pos h]
      obtain ⟨ih1, ih2⟩ := ih (c + 1)
      refine ⟨?_, ih2⟩
      simp only [List.map_cons, ih1]
      rfl
    · simp only [if_neg h]
      obtain ⟨ih1, ih2⟩ := ih c
      refine ⟨?_, ih2⟩
      simp only [List.map_cons, ih1]
      rfl

theorem scrub_refLoopGroups (sf ea1 ea2 : String) (pid : Option String) :
    ∀ l c, ((refLoopGroups sf ea1 pid l c).1.map scrub
        = (refLoopGroups sf ea2 pid l c).1.map scrub)
      ∧ (refLoopGroups sf ea1 pid l c).2 = (refLoopGroups sf ea2 pid l c).2 :=
  scrub_level (fun _ _ _ => rfl) (fun _ _ _ => rfl) (fun _ => rfl) (fun _ => rfl)
    (fun x c => scrub_refLoopRefs sf ea1 ea2 pid (x.findall "UnderwriterReferral") c)

theorem scrub_refLoopPolicies (sf ea1 ea2 : String) :
    ∀ l c, ((refLoopPolicies sf ea1 l c).1.map scrub = (refLoopPolicies sf ea2 l c).1.map scrub)
      ∧ (refLoopPolicies sf ea1 l c).2 = (refLoopPolicies sf ea2 l c).2 :=
  scrub_level (fun _ _ _ => rfl) (fun _ _ _ => rfl) (fun _ => rfl) (fun _ => rfl)
    (fun x c => scrub_refLoopGroups sf ea1 ea2 (x.get "id")
      (x.findallDesc "UnderwriterReferrals") c)

theorem scrub_refLoopDatas (sf ea1 ea2 : String) :
    ∀ l c, ((refLoopDatas sf ea1 l c).1.map scrub = (refLoopDatas sf ea2 l c).1.map scrub)
      ∧ (refLoopDatas sf ea1 l c).2 = (refLoopDatas sf ea2 l c).2 :=
  scrub_level (fun _ _ _ => rfl) (fun _ _ _ => rfl) (fun _ => rfl) (fun _ => rfl)
    (fun x c => scrub_refLoopPolicies sf ea1 ea2 (x.findall "policy") c)

theorem scrub_taxLoopPolicyTaxes (sf ea1 ea2 : String) (pid : Option String) :
    ∀ l c, ((taxLoopPolicyTaxes sf ea1 pid l c).1.map scrub
        = (taxLoopPolicyTaxes sf ea2 pid l c).1.map scrub)
      ∧ (taxLoopPolicyTaxes sf ea1 pid l c).2 = (taxLoopPolicyTaxes sf ea2 pid l c).2 := by
  intro l
  induction l with
  | nil => intro c; exact ⟨rfl, rfl⟩
  | cons tax rest ih =>
    intro c
    simp only [taxLoopPolicyTaxes]
    obtain ⟨ih1, ih2⟩ := ih (c + 1)
    refine ⟨?_, ih2⟩
    simp only [List.map_cons, ih1]
    rfl

theorem scrub_taxLoopLineTaxes (sf ea1 ea2 : String) (pid lid : Option String) :
    ∀ l c, ((taxLoopLineTaxes sf ea1 pid lid l c).1.map scrub
        = (taxLoopLineTaxes sf ea2 pid lid l c).1.map scrub)
      ∧ (taxLoopLineTaxes sf ea1 pid lid l c).2 = (taxLoopLineTaxes sf ea2 pid lid l c).2 := by
  intro l
  induction l with
  | nil => intro c; exact ⟨rfl, rfl⟩
  | cons tax rest ih =>
    intro c
    simp only [taxLoopLineTaxes]
    obtain ⟨ih1, ih2⟩ := ih (c + 1)
    refine ⟨?_, ih2⟩
    simp only [List.map_cons, ih1]
    rfl

theorem scrub_taxLoopLines (sf ea1 ea2 : String) (pid : Option String) :
    ∀ l c, ((taxLoopLines sf ea1 pid l c).1.map scrub
        = (taxLoopLines sf ea2 pid l c).1.map scrub)
      ∧ (taxLoopLines sf ea1 pid l c).2 = (taxLoopLines sf ea2 pid l c).2 :=
  scrub_level (fun _ _ _ => rfl) (fun _ _ _ => rfl) (fun _ => rfl) (fun _ => rfl)
    (fun x c => scrub_taxLoopLineTaxes sf ea1 ea2 pid (x.get "id")
      (x.findall "lineStateTaxSurcharge") c)

theorem scrub_taxPolicyStep (sf ea1 ea2 : String) :
    ∀ x c, ((taxPolicyStep sf ea1 x c).1.map scrub = (taxPolicyStep sf ea2 x c).1.map scrub)
      ∧ (taxPolicyStep sf ea1 x c).2 = (taxPolicyStep sf ea2 x c).2 := by
  intro x c
  obtain ⟨h1, h2⟩ := scrub_taxLoopPolicyTaxes sf ea1 ea2 (x.get "id")
    (x.findall "stateTaxSurcharge") c
  obtain ⟨h3, h4⟩ := scrub_taxLoopLines sf ea1 ea2 (x.get "id") (x.findall "line")
    (taxLoopPolicyTaxes sf ea1 (x.get "id") (x.findall "stateTaxSurcharge") c).2
  simp only [taxPolicyStep]
  constructor
  · rw [List.map_append, List.map_append, h1, ← h2, h3]
  · rw [← h2]
    exact h4

theorem scrub_taxLoopPolicies (sf ea1 ea2 : String) :
    ∀ l c, ((taxLoopPolicies sf ea1 l c).1.map scrub = (taxLoopPolicies sf ea2 l c).1.map scrub)
      ∧ (taxLoopPolicies sf ea1 l c).2 = (taxLoopPolicies sf ea2 l c).2 :=
  @scrub_level (taxLoopPolicies sf ea1) (taxLoopPolicies sf ea2)
    (taxPolicyStep sf ea1) (taxPolicyStep sf ea2)
    (fun _ _ _ => rfl) (fun _ _ _ => rfl) (fun _ => rfl) (fun _ => rfl)
    (scrub_taxPolicyStep sf ea1 ea2)

theorem scrub_taxLoopDatas (sf ea1 ea2 : String) :
    ∀ l c, ((taxLoopDatas sf ea1 l c).1.map scrub = (taxLoopDatas sf ea2 l c).1.map scrub)
      ∧ (taxLoopDatas sf ea1 l c).2 = (taxLoopDatas sf ea2 l c).2 :=
  scrub_level (fun _ _ _ => rfl) (fun _ _ _ => rfl) (fun _ => rfl) (fun _ => rfl)
    (fun x c => scrub_taxLoopPolicies sf ea1 ea2 (x.findall "policy") c)

theorem scrub_extractPolicies (root : Elem) (sf mt ea1 ea2 : String) :
    (extractPolicies root sf mt ea1).map scrub = (extractPolicies root sf mt ea2).map scrub := by
  simp only [extractPolicies, List.map_flatMap, List.map_map]
  rfl

theorem scrub_extractLines (root : Elem) (sf ea1 ea2 : String) :
    (extractLines root sf ea1).map scrub = (extractLines root sf ea2).map scrub := by
  simp only [extractLines, List.map_flatMap, List.map_map]
  rfl

theorem scrub_extractCoverages (root : Elem) (sf ea1 ea2 : String) :
    (extractCoverages root sf ea1).map scrub = (extractCoverages root sf ea2).map scrub :=
  (scrub_covLoopDatas sf ea1 ea2 (root.findallDesc "data") 0).1

theorem scrub_extractExposures (root : Elem) (sf ea1 ea2 : String) :
    (extractExposures root sf ea1).map scrub = (extractExposures root sf ea2).map scrub :=
  (scrub_expLoopDatas sf ea1 ea2 (root.findallDesc "data") 0).1

theorem scrub_extractLimits (root : Elem) (sf ea1 ea2 : String) :
    (extractLimits root sf ea1).map scrub = (extractLimits root sf ea2).map scrub :=
  (scrub_limLoopDatas sf ea1 ea2 (root.findallDesc "data") 0).1

theorem scrub_extractDeductibles (root : Elem) (sf ea1 ea2 : String) :
    (extractDeductibles root sf ea1).map scrub = (extractDeductibles root sf ea2).map scrub :=
  (scrub_dedLoopDatas sf ea1 ea2 (root.findallDesc "data") 0).1

theorem scrub_extractLocations (root : Elem) (sf ea1 ea2 : String) :
    (extractLocations root sf ea1).map scrub = (extractLocations root sf ea2).map scrub := by
  simp only [extractLocations, List.map_flatMap, List.map_map]
  rfl

theorem scrub_extractBuildings (root : Elem) (sf ea1 ea2 : String) :
    (extractBuildings root sf ea1).map scrub = (extractBuildings root sf ea2).map scrub := by
  simp only [extractBuildings, List.map_flatMap, List.map_append, List.map_map]
  rfl

theorem scrub_extractOccupancies (root : Elem) (sf ea1 ea2 : String) :
    (extractOccupancies root sf ea1).map scrub = (extractOccupancies root sf ea2).map scrub := by
  simp only [extractOccupancies, List.map_flatMap, List.map_append, List.map_map]
  rfl

theorem scrub_extractAccounts (root : Elem) (sf ea1 ea2 : String) :
    (extractAccounts root sf ea1).map scrub = (extractAccounts root sf ea2).map scrub := by
  simp only [extractAccounts, List.map_flatMap, List.map_map]
  rfl

theorem scrub_extractAddresses (root : Elem) (sf ea1 ea2 : String) :
    (extractAddresses root sf ea1).map scrub = (extractAddresses root sf ea2).map scrub := by
  simp only [extractAddresses, List.map_flatMap, List.map_append, List.map_map]
  rfl

theorem scrub_extractUnderwriterReferrals (root : Elem) (sf ea1 ea2 : String) :
    (extractUnderwriterReferrals root sf ea1).map scrub
      = (extractUnderwriterReferrals root sf ea2).map scrub :=
  (scrub_refLoopDatas sf ea1 ea2 (root.findallDesc "data") 0).1

theorem scrub_extractTaxSurcharges (root : Elem) (sf ea1 ea2 : String) :
    (extractTaxSurcharges root sf ea1).map scrub = (extractTaxSurcharges root sf ea2).map scrub :=
  (scrub_taxLoopDatas sf ea1 ea2 (root.findallDesc "data") 0).1

set_option maxHeartbeats 1000000 in
theorem scrub_extractOne (tableName : String) (root : Elem) (sf mt ea1 ea2 : String) :
    (extractOne tableName root sf mt ea1).map scrub
      = (extractOne tableName root sf mt ea2).map scrub := by
  unfold extractOne
  by_cases h1 : tableName = "policies"
  · simp only [if_pos h1]
    exact scrub_extractPolicies root sf mt ea1 ea2
  simp only [if_neg h1]
  by_cases h2 : tableName = "lines"
  · simp only [if_pos h2]
    exact scrub_extractLines root sf ea1 ea2
  simp only [if_neg h2]
  by_cases h3 : tableName = "coverages"
  · simp only [if_pos h3]
    exact scrub_extractCoverages root sf ea1 ea2
  simp only [if_neg h3]
  by_cases h4 : tableName = "exposures"
  · simp only [if_pos h4]
    exact scrub_extractExposures root sf ea1 ea2
  simp only [if_neg h4]
  by_cases h5 : tableName = "limits"
  · simp only [if_pos h5]
    exact scrub_extractLimits root sf ea1 ea2
  simp only [if_neg h5]
  by_cases h6 : tableName = "deductibles"
  · simp only [if_pos h6]
    exact scrub_extractDeductibles root sf ea1 ea2
  simp only [if_neg h6]
  by_cases h7 : tableName = "locations"
  · simp only [if_pos h7]
    exact scrub_extractLocations root sf ea1 ea2
  simp only [if_neg h7]
  by_cases h8 : tableName = "buildings"
  · simp only [if_pos h8]
    exact scrub_extractBuildings root sf ea1 ea2
  simp only [if_neg h8]
  by_cases h9 : tableName = "occupancies"
  · simp only [if_pos h9]
    exact scrub_extractOccupancies root sf ea1 ea2
  simp only [if_neg h9]
  by_cases h10 : tableName = "accounts"
  · simp only [if_pos h10]
    exact scrub_extractAccounts root sf ea1 ea2
  simp only [if_neg h10]
  by_cases h11 : tableName = "addresses"
  · simp only [if_pos h11]
    exact scrub_extractAddresses root sf ea1 ea2
  simp only [if_neg h11]
  by_cases h12 : tableName = "underwriter_referrals"
  · simp only [if_pos h12]
    exact scrub_extractUnderwriterReferrals root sf ea1 ea2
  simp only [if_neg h12]
  by_cases h13 : tableName = "tax_surcharges"
  · simp only [if_pos h13]
    exact scrub_extractTaxSurcharges root sf ea1 ea2
  simp only [if_neg h13]

theorem scrub_extractTableRecords (tableName : String) (files : List FileData)
    (ea1 ea2 : String) :
    (extractTableRecords tableName files ea1).map scrub
      = (extractTableRecords tableName files ea2).map scrub := by
  induction files with
  | nil => rfl
  | cons f rest ih =>
    obtain ⟨p, mt, content⟩ := f
    cases content with
    | none =>
      simp only [extractTableRecords, List.flatMap_cons] at ih ⊢
      rw [List.map_append, List.map_append, ih]
    | some root =>
      simp only [extractTableRecords, List.flatMap_cons] at ih ⊢
      rw [List.map_append, List.map_append, ih,
        scrub_extractOne tableName root (basename p) mt ea1 ea2]

/-! ## Claim C1 -/

/-- Claim C1: for every document and every table, the extraction rule is a
pure function of the parsed document, the file name, and the file
modification time; the call-scoped extraction timestamp (the only wall-clock
input, threaded in as `ea`) influences nothing but the `_extracted_at`
stamp.  Hence re-running an extraction (fresh per-file counters each run, as
a fresh call) at any two clock readings yields records that agree after
erasing the stamp, and in particular every primary-key and foreign-key
column (any column other than `_extracted_at`) agrees, in identical order.
Determinism of two runs at equal inputs is definitional in the embedding. -/
theorem claim_C1 (tableName : String) (files : List FileData) (ea1 ea2 : String)
    (k : String) (hk : ¬ k = "_extracted_at") :
    ((extractTableRecords tableName files ea1).map scrub
        = (extractTableRecords tableName files ea2).map scrub)
    ∧ ((extractTableRecords tableName files ea1).map (List.lookup k)
        = (extractTableRecords tableName files ea2).map (List.lookup k)) := by
  have hs := scrub_extractTableRecords tableName files ea1 ea2
  refine ⟨hs, ?_⟩
  have hmap : ∀ l : List Record,
      l.map (List.lookup k) = (l.map scrub).map (List.lookup k) := by
    intro l
    rw [List.map_map]
    exact (List.map_congr_left fun r _ => lookup_scrub k hk r).symm
  rw [hmap (extractTableRecords tableName files ea1), hs,
    ← hmap (extractTableRecords tableName files ea2)]

/-- Witness for `claim_C1`: concrete table, file list, and key column. -/
theorem claim_C1_witness :
    ¬ ("coverage_id" : String) = "_extracted_at"
    ∧ (((extractTableRecords "coverages" [("a.xml", "t1", some docA)] "A").map scrub
        = (extractTableRecords "coverages" [("a.xml", "t1", some docA)] "B").map scrub)
      ∧ ((extractTableRecords "coverages" [("a.xml", "t1", some docA)] "A").map
            (List.lookup "coverage_id")
        = (extractTableRecords "coverages" [("a.xml", "t1", some docA)] "B").map
            (List.lookup "coverage_id"))) :=
  ⟨by decide,
    claim_C1 "coverages" [("a.xml", "t1", some docA)] "A" "B" "coverage_id" (by decide)⟩

/-! ## File selection and watermark computation -/

theorem selectAndMax_fst (wm : String) (world : List FileData) :
    (selectAndMax wm world).1 = world.filter (qualifies wm) := by
  suffices h : ∀ (acc : List FileData) (m : String),
      (world.foldl (selStep wm) (acc, m)).1 = acc ++ world.filter (qualifies wm) by
    simpa using h [] wm
  induction world with
  | nil =>
    intro acc m
    simp
  | cons f rest ih =>
    intro acc m
    simp only [List.foldl_cons, List.filter_cons, selStep]
    cases hq : qualifies wm f with
    | true =>
      simp only [hq, if_true, eq_self_iff_true]
      rw [ih]
      simp
    | false =>
      simp only [hq, Bool.false_eq_true, if_false]
      rw [ih]

theorem selectAndMax_snd (wm : String) (world : List FileData) :
    (selectAndMax wm world).2 = (world.filter (qualifies wm)).foldl maxStep wm := by
  suffices h : ∀ (acc : List FileData) (m : String),
      (world.foldl (selStep wm) (acc, m)).2 = (world.filter (qualifies wm)).foldl maxStep m by
    exact h [] wm
  induction world with
  | nil =>
    intro acc m
    rfl
  | cons f rest ih =>
    intro acc m
    simp only [List.foldl_cons, List.filter_cons, selStep]
    cases hq : qualifies wm f with
    | true =>
      simp only [hq, if_true, eq_self_iff_true]
      rw [ih]
      rfl
    | false =>
      simp only [hq, Bool.false_eq_true, if_false]
      exact ih acc m

theorem foldl_maxStep_ge (l : List FileData) :
    ∀ m, pyStrLt (l.foldl maxStep m) m = false := by
  induction l with
  | nil => intro m; exact pyStrLt_irrefl m
  | cons f rest ih =>
    intro m
    simp only [List.foldl_cons, maxStep]
    cases hlt : pyStrLt m f.2.1 with
    | true =>
      simp only [hlt, if_true, eq_self_iff_true]
      exact pyStrGe_trans (pyStrLt_asymm hlt) (ih f.2.1)
    | false =>
      simp only [hlt, Bool.false_eq_true, if_false]
      exact ih m

theorem foldl_maxStep_ge_mem (l : List FileData) :
    ∀ m f, f ∈ l → pyStrLt (l.foldl maxStep m) f.2.1 = false := by
  induction l with
  | nil =>
    intro m f hf
    simp at hf
  | cons g rest ih =>
    intro m f hf
    simp only [List.foldl_cons]
    rcases List.mem_cons.mp hf with hf | hf
    · subst hf
      have h1 := foldl_maxStep_ge rest (maxStep m f)
      have h2 : pyStrLt (maxStep m f) f.2.1 = false := by
        unfold maxStep
        cases hlt : pyStrLt m f.2.1 with
        | true =>
          simp only [hlt, if_true, eq_self_iff_true]
          exact pyStrLt_irrefl _
        | false =>
          simp only [hlt, Bool.false_eq_true, if_false]
      exact pyStrGe_trans h2 h1
    · exact ih (maxStep m g) f hf

theorem foldl_maxStep_mem (l : List FileData) :
    ∀ m, l.foldl maxStep m = m ∨ l.foldl maxStep m ∈ l.map (fun f => f.2.1) := by
  induction l with
  | nil => intro m; exact Or.inl rfl
  | cons f rest ih =>
    intro m
    simp only [List.foldl_cons, List.map_cons]
    rcases ih (maxStep m f) with h | h
    · rw [h]
      unfold maxStep
      cases hlt : pyStrLt m f.2.1 with
      | true => simp [hlt]
      | false => simp [hlt]
    · exact Or.inr (List.mem_cons_of_mem _ h)

theorem readTable_snd (tableName wm ea : String) (world : List FileData) :
    (readTable tableName wm world ea).2
      = if world.isEmpty then wm else (world.filter (qualifies wm)).foldl maxStep wm := by
  unfold readTable
  cases hw : world.isEmpty with
  | true => simp [hw]
  | false => simp [hw, selectAndMax_snd]

/-! ## Claims C6 and C7 -/

/-- Claim C6: for every read call the outgoing watermark never lies below the
incoming one (Python string order on ISO timestamps), it equals the incoming
watermark unchanged when no file was selected, and when files were selected
it is the maximum of their modification times: it is one of them and none of
them exceeds it. -/
theorem claim_C6 (tableName wm ea : String) (world : List FileData) :
    pyStrLt (readTable tableName wm world ea).2 wm = false
    ∧ ((selectAndMax wm world).1 = [] → (readTable tableName wm world ea).2 = wm)
    ∧ ((selectAndMax wm world).1 ≠ [] →
        (readTable tableName wm world ea).2 ∈ (selectAndMax wm world).1.map (fun f => f.2.1)
        ∧ ∀ f ∈ (selectAndMax wm world).1,
            pyStrLt (readTable tableName wm world ea).2 f.2.1 = false) := by
  rw [readTable_snd, selectAndMax_fst]
  cases hw : world.isEmpty with
  | true =>
    have hnil : world = [] := List.isEmpty_iff.mp hw
    subst hnil
    simp [pyStrLt_irrefl]
  | false =>
    simp only [hw, Bool.false_eq_true, if_false]
    refine ⟨foldl_maxStep_ge _ wm, ?_, ?_⟩
    · intro hsel
      rw [hsel]
      rfl
    · intro hne
      refine ⟨?_, fun f hf => foldl_maxStep_ge_mem _ wm f hf⟩
      rcases foldl_maxStep_mem (world.filter (qualifies wm)) wm with h | h
      · obtain ⟨f0, hf0⟩ := List.exists_mem_of_ne_nil _ hne
        have hq : qualifies wm f0 = true := (List.mem_filter.mp hf0).2
        have hge := foldl_maxStep_ge_mem (world.filter (qualifies wm)) wm f0 hf0
        rw [h] at hge
        unfold qualifies at hq
        rcases (Bool.or_eq_true _ _).mp hq with hq1 | hq2
        · have hwm : wm = "" := by simpa using hq1
          subst hwm
          have hmt : f0.2.1 = "" := pyStrLt_eq_of_not_lt (pyStrLt_empty f0.2.1) hge
          have hm2 : f0.2.1 ∈ (List.filter (qualifies "") world).map (fun f => f.2.1) :=
            List.mem_map_of_mem (fun f => f.2.1) hf0
          rw [hmt] at hm2
          rw [h]
          exact hm2
        · rw [hq2] at hge
          exact absurd hge (by simp)
      · exact h

/-- Claim C7: file selection returns exactly the files whose modification
time is strictly greater than the incoming watermark, with an empty
watermark selecting every matching file; a file whose modification time
equals a nonempty watermark is excluded (strict greater-than boundary). -/
theorem claim_C7 (wm : String) (world : List FileData) (f : FileData) :
    (f ∈ (selectAndMax wm world).1 ↔ f ∈ world ∧ (wm = "" ∨ pyStrLt wm f.2.1 = true))
    ∧ (¬ wm = "" → f.2.1 = wm → f ∉ (selectAndMax wm world).1) := by
  rw [selectAndMax_fst]
  constructor
  · rw [List.mem_filter]
    constructor
    · rintro ⟨hmem, hq⟩
      refine ⟨hmem, ?_⟩
      unfold qualifies at hq
      rcases (Bool.or_eq_true _ _).mp hq with h1 | h2
      · exact Or.inl (by simpa using h1)
      · exact Or.inr h2
    · rintro ⟨hmem, hq⟩
      refine ⟨hmem, ?_⟩
      unfold qualifies
      rcases hq with h1 | h2
      · exact (Bool.or_eq_true _ _).mpr (Or.inl (by simpa using h1))
      · exact (Bool.or_eq_true _ _).mpr (Or.inr h2)
  · intro hne heq hmem
    rw [List.mem_filter] at hmem
    have hq := hmem.2
    unfold qualifies at hq
    rcases (Bool.or_eq_true _ _).mp hq with h1 | h2
    · exact hne (by simpa using h1)
    · rw [heq, pyStrLt_irrefl] at h2
      exact absurd h2 (by simp)

/-- Witness for `claim_C7`: a file whose modification time equals the
nonempty watermark is excluded from selection. -/
theorem claim_C7_witness :
    ¬ ("t1" : String) = ""
    ∧ (("dir/c.xml", "t1", (none : Option Elem)) : FileData).2.1 = "t1"
    ∧ ("dir/c.xml", "t1", (none : Option Elem))
        ∉ (selectAndMax "t1" [("dir/c.xml", "t1", none)]).1 :=
  ⟨by decide, rfl,
    (claim_C7 "t1" [("dir/c.xml", "t1", none)] ("dir/c.xml", "t1", none)).2 (by decide) rfl⟩

/-- Witness for `claim_C6`: on a concrete two-file world with an empty
incoming watermark, the selection is nonempty and the outgoing watermark is
one of the selected files' modification times. -/
theorem claim_C6_witness :
    (selectAndMax "" world0).1 ≠ []
    ∧ (readTable "coverages" "" world0 "T").2
        ∈ (selectAndMax "" world0).1.map (fun f => f.2.1) := by
  have hB : ((selectAndMax "" world0).1).isEmpty = false := by decide
  have hne : (selectAndMax "" world0).1 ≠ [] := by
    intro h
    rw [h] at hB
    simp at hB
  exact ⟨hne, ((claim_C6 "coverages" "" "T" world0).2.2 hne).1⟩

/-! ## Claims C8 and C10 -/

theorem extractTableRecords_filter (tableName : String) (files : List FileData) (ea : String) :
    extractTableRecords tableName files ea
      = extractTableRecords tableName (files.filter (fun f => f.2.2.isSome)) ea := by
  induction files with
  | nil => rfl
  | cons f rest ih =>
    obtain ⟨p, mt, content⟩ := f
    cases content with
    | none =>
      simp only [extractTableRecords, List.flatMap_cons, List.filter_cons] at ih ⊢
      simpa using ih
    | some root =>
      simp only [extractTableRecords, List.flatMap_cons, List.filter_cons] at ih ⊢
      simpa using ih

/-- Claim C8: extraction over a batch of selected files equals extraction
over the subset of those files that parse — a file that fails to parse is
skipped and the remaining files still contribute all their rows (the
embedding is total, mirroring that the source catches `ET.ParseError` and
continues; it never re-raises).  A call that selects zero qualifying files
returns an empty result set with the watermark unchanged. -/
theorem claim_C8 (tableName wm ea : String) (world : List FileData) :
    (extractTableRecords tableName (selectAndMax wm world).1 ea
      = extractTableRecords tableName
          ((selectAndMax wm world).1.filter (fun f => f.2.2.isSome)) ea)
    ∧ ((selectAndMax wm world).1 = [] →
        (readTable tableName wm world ea).1 = [] ∧ (readTable tableName wm world ea).2 = wm) := by
  refine ⟨extractTableRecords_filter tableName _ ea, ?_⟩
  intro hsel
  cases hw : world.isEmpty with
  | true =>
    unfold readTable
    rw [hw]
    exact ⟨rfl, rfl⟩
  | false =>
    unfold readTable
    rw [hw]
    constructor
    · show extractTableRecords tableName (selectAndMax wm world).1 ea = []
      rw [hsel]
      rfl
    · show (selectAndMax wm world).2 = wm
      rw [selectAndMax_snd]
      have hfil : world.filter (qualifies wm) = [] := by
        rw [← selectAndMax_fst]
        exact hsel
      rw [hfil]
      rfl

/-- Witness for `claim_C8`: with a mixed world (one parseable file, one
parse failure) the extracted rows equal those of the parseable subset; and a
call whose selection is empty returns no rows and the watermark unchanged. -/
theorem claim_C8_witness :
    (extractTableRecords "coverages" (selectAndMax "" worldMix).1 "T"
      = extractTableRecords "coverages"
          ((selectAndMax "" worldMix).1.filter (fun f => f.2.2.isSome)) "T")
    ∧ ((readTable "coverages" "t9" [] "T").1 = []
        ∧ (readTable "coverages" "t9" [] "T").2 = "t9") :=
  ⟨(claim_C8 "coverages" "" "T" worldMix).1,
    (claim_C8 "coverages" "t9" "T" []).2 rfl⟩

theorem filter_qualifies_map_mt (wm : String) (l : List FileData) :
    (l.filter (qualifies wm)).map (fun f => f.2.1)
      = (l.map (fun f => f.2.1)).filter (fun t => wm == "" || pyStrLt wm t) := by
  induction l with
  | nil => rfl
  | cons f rest ih =>
    simp only [List.filter_cons, List.map_cons, qualifies] at ih ⊢
    split
    next =>
      simp only [List.map_cons]
      rw [ih]
    next => exact ih

theorem foldl_maxStep_eq_mt (l : List FileData) :
    ∀ m, l.foldl maxStep m = (l.map (fun f => f.2.1)).foldl mtMaxStep m := by
  induction l with
  | nil => intro m; rfl
  | cons f rest ih =>
    intro m
    simp only [List.foldl_cons, List.map_cons]
    rw [ih]
    rfl

/-- Claim C10: the outgoing watermark is computed at selection time from the
file names and modification times alone — replacing any file's content, in
particular making it fail to parse, leaves the outgoing watermark unchanged.
Consequently a selected file that failed to parse still pushed the
watermark; it is never strictly newer than the outgoing watermark and, for a
nonempty outgoing watermark, it is not selected by the next incremental
call, so its contents are never extracted later. -/
theorem claim_C10 (tableName wm ea : String) (world world2 : List FileData)
    (hsame : world.map (fun f => (f.1, f.2.1)) = world2.map (fun f => (f.1, f.2.1))) :
    ((readTable tableName wm world ea).2 = (readTable tableName wm world2 ea).2)
    ∧ ∀ f ∈ (selectAndMax wm world).1,
        pyStrLt (readTable tableName wm world ea).2 f.2.1 = false
        ∧ (¬ (readTable tableName wm world ea).2 = "" →
            f ∉ (selectAndMax (readTable tableName wm world ea).2 world).1) := by
  have hmt : world.map (fun f => f.2.1) = world2.map (fun f => f.2.1) := by
    have h2 := congrArg (List.map Prod.snd) hsame
    simpa [List.map_map, Function.comp] using h2
  have hlen : world.length = world2.length := by
    have h2 := congrArg List.length hsame
    simpa using h2
  have hemp : world.isEmpty = world2.isEmpty := by
    cases world with
    | nil =>
      cases world2 with
      | nil => rfl
      | cons b l2 => simp at hlen
    | cons a l1 =>
      cases world2 with
      | nil => simp at hlen
      | cons b l2 => rfl
  constructor
  · rw [readTable_snd, readTable_snd, hemp]
    cases he : world2.isEmpty with
    | true => rfl
    | false =>
      simp only [Bool.false_eq_true, if_false]
      rw [foldl_maxStep_eq_mt, foldl_maxStep_eq_mt, filter_qualifies_map_mt,
        filter_qualifies_map_mt, hmt]
  · intro f hf
    rw [selectAndMax_fst] at hf
    have hfm := List.mem_filter.mp hf
    have hout : (readTable tableName wm world ea).2
        = (world.filter (qualifies wm)).foldl maxStep wm := by
      rw [readTable_snd]
      cases hw : world.isEmpty with
      | true =>
        have : world = [] := List.isEmpty_iff.mp hw
        subst this
        simp at hfm
      | false => simp [hw]
    have hge : pyStrLt (readTable tableName wm world ea).2 f.2.1 = false := by
      rw [hout]
      exact foldl_maxStep_ge_mem _ wm f hf
    refine ⟨hge, ?_⟩
    intro hne hmem
    rw [selectAndMax_fst, List.mem_filter] at hmem
    have hq := hmem.2
    unfold qualifies at hq
    rcases (Bool.or_eq_true _ _).mp hq with h1 | h2
    · exact hne (by simpa using h1)
    · rw [hge] at h2
      exact absurd h2 (by simp)

/-- Witness for `claim_C10`: a one-file world whose file fails to parse has
the same outgoing watermark as the same world with the file parsing, the
failed file is not newer than the outgoing watermark, and it is excluded
from the next call's selection. -/
theorem claim_C10_witness :
    [(("dir/a.xml", "t1", none) : FileData)].map (fun f => (f.1, f.2.1))
        = [fileA].map (fun f => (f.1, f.2.1))
    ∧ ((readTable "coverages" "" [("dir/a.xml", "t1", none)] "T").2
        = (readTable "coverages" "" [fileA] "T").2)
    ∧ (pyStrLt (readTable "coverages" "" [("dir/a.xml", "t1", none)] "T").2 "t1" = false
        ∧ (¬ (readTable "coverages" "" [("dir/a.xml", "t1", none)] "T").2 = "" →
            ("dir/a.xml", "t1", (none : Option Elem))
              ∉ (selectAndMax (readTable "coverages" "" [("dir/a.xml", "t1", none)] "T").2
                  [("dir/a.xml", "t1", none)]).1)) := by
  have hsame : [(("dir/a.xml", "t1", none) : FileData)].map (fun f => (f.1, f.2.1))
      = [fileA].map (fun f => (f.1, f.2.1)) := by decide
  have hmem : (("dir/a.xml", "t1", none) : FileData)
      ∈ (selectAndMax "" [(("dir/a.xml", "t1", none) : FileData)]).1 :=
    List.mem_singleton.mpr rfl
  have h := claim_C10 "coverages" "" "T" [("dir/a.xml", "t1", none)] [fileA] hsame
  exact ⟨hsame, h.1, h.2 ("dir/a.xml", "t1", none) hmem⟩

/-! ## Claim C9 -/

theorem getTableSchema_unknown (tableName : String) (h : ¬ tableName ∈ listTables) :
    getTableSchema tableName = Except.error ("Unknown table: " ++ tableName) := by
  simp only [listTables, List.mem_cons, List.not_mem_nil, or_false, not_or] at h
  obtain ⟨h1, h2, h3, h4, h5, h6, h7, h8, h9, h10, h11, h12, h13⟩ := h
  unfold getTableSchema schemas
  simp [List.lookup, beq_eq_false_iff_ne.mpr h1, beq_eq_false_iff_ne.mpr h2,
    beq_eq_false_iff_ne.mpr h3, beq_eq_false_iff_ne.mpr h4, beq_eq_false_iff_ne.mpr h5,
    beq_eq_false_iff_ne.mpr h6, beq_eq_false_iff_ne.mpr h7, beq_eq_false_iff_ne.mpr h8,
    beq_eq_false_iff_ne.mpr h9, beq_eq_false_iff_ne.mpr h10, beq_eq_false_iff_ne.mpr h11,
    beq_eq_false_iff_ne.mpr h12, beq_eq_false_iff_ne.mpr h13]

theorem readTableMetadata_unknown (tableName : String) (h : ¬ tableName ∈ listTables) :
    readTableMetadata tableName = Except.error ("Unknown table: " ++ tableName) := by
  simp only [listTables, List.mem_cons, List.not_mem_nil, or_false, not_or] at h
  obtain ⟨h1, h2, h3, h4, h5, h6, h7, h8, h9, h10, h11, h12, h13⟩ := h
  unfold readTableMetadata metadataTable
  simp [List.lookup, beq_eq_false_iff_ne.mpr h1, beq_eq_false_iff_ne.mpr h2,
    beq_eq_false_iff_ne.mpr h3, beq_eq_false_iff_ne.mpr h4, beq_eq_false_iff_ne.mpr h5,
    beq_eq_false_iff_ne.mpr h6, beq_eq_false_iff_ne.mpr h7, beq_eq_false_iff_ne.mpr h8,
    beq_eq_false_iff_ne.mpr h9, beq_eq_false_iff_ne.mpr h10, beq_eq_false_iff_ne.mpr h11,
    beq_eq_false_iff_ne.mpr h12, beq_eq_false_iff_ne.mpr h13]

theorem extractOne_unknown (tableName : String) (h : ¬ tableName ∈ listTables)
    (root : Elem) (sf mt ea : String) : extractOne tableName root sf mt ea = [] := by
  simp only [listTables, List.mem_cons, List.not_mem_nil, or_false, not_or] at h
  obtain ⟨h1, h2, h3, h4, h5, h6, h7, h8, h9, h10, h11, h12, h13⟩ := h
  unfold extractOne
  rw [if_neg h1, if_neg h2, if_neg h3, if_neg h4, if_neg h5, if_neg h6, if_neg h7,
    if_neg h8, if_neg h9, if_neg h10, if_neg h11, if_neg h12, if_neg h13]

theorem extractTableRecords_unknown (tableName : String) (h : ¬ tableName ∈ listTables)
    (files : List FileData) (ea : String) : extractTableRecords tableName files ea = [] := by
  induction files with
  | nil => rfl
  | cons f rest ih =>
    obtain ⟨p, mt, content⟩ := f
    cases content with
    | none =>
      simp only [extractTableRecords, List.flatMap_cons] at ih ⊢
      simpa using ih
    | some root =>
      simp only [extractTableRecords, List.flatMap_cons] at ih ⊢
      rw [extractOne_unknown tableName h root (basename p) mt ea]
      simpa using ih

/-- Claim C9 (amended): for a table name outside the fixed 13-table catalog
the schema interface and the metadata interface raise
`ValueError("Unknown table: ...")`, but the read interface performs no
table-name validation: the `if/elif` dispatch of `_extract_table_records`
matches no branch and the call returns an EMPTY record sequence (with the
watermark still advanced) instead of failing.  Calls for valid table names
are unaffected: both catalog interfaces succeed on all 13 names. -/
theorem claim_C9 (tableName : String) (h : ¬ tableName ∈ listTables) :
    getTableSchema tableName = Except.error ("Unknown table: " ++ tableName)
    ∧ readTableMetadata tableName = Except.error ("Unknown table: " ++ tableName)
    ∧ (∀ wm ea world, (readTable tableName wm world ea).1 = [])
    ∧ ∀ t ∈ listTables,
        (∃ s, getTableSchema t = Except.ok s) ∧ ∃ m, readTableMetadata t = Except.ok m := by
  refine ⟨getTableSchema_unknown tableName h, readTableMetadata_unknown tableName h, ?_, ?_⟩
  · intro wm ea world
    unfold readTable
    cases hw : world.isEmpty with
    | true => rfl
    | false =>
      show extractTableRecords tableName (selectAndMax wm world).1 ea = []
      exact extractTableRecords_unknown tableName h _ ea
  · intro t ht
    fin_cases ht <;> exact ⟨⟨_, rfl⟩, ⟨_, rfl⟩⟩

/-- Counterexample for claim C9 as stated: the read interface does NOT fail
for an unknown table name; with one parseable selected file it returns a
normal result — an empty record sequence and an advanced watermark — rather
than an UnknownTable error (the source's `read_table` has no validation and
no raise path for the table name). -/
theorem claim_C9_counterexample :
    readTable "not_a_table" "" [fileA] "T" = ([], "t1") := by decide

/-- Witness for `claim_C9` at the concrete unknown name `zzz`. -/
theorem claim_C9_witness :
    ¬ ("zzz" : String) ∈ listTables
    ∧ (getTableSchema "zzz" = Except.error ("Unknown table: " ++ "zzz")
      ∧ readTableMetadata "zzz" = Except.error ("Unknown table: " ++ "zzz")
      ∧ (∀ wm ea world, (readTable "zzz" wm world ea).1 = [])
      ∧ ∀ t ∈ listTables,
          (∃ s, getTableSchema t = Except.ok s) ∧ ∃ m, readTableMetadata t = Except.ok m) :=
  ⟨by decide, claim_C9 "zzz" (by decide)⟩

/-! ## Claims C3, C4, C5 -/

/-- Counterexample for claim C3 as stated: in `docC3` the account holds a
location child (`LOC1`) alongside a direct-child building (`B1`).  The claim
says the direct placement yields a row with null `location_id` in particular
in this situation; the code instead runs `account.find("location")`
unconditionally and attaches the first location's id, so `B1`'s row carries
`LOC1`, not null. -/
theorem claim_C3_counterexample :
    (extractBuildings docC3 "f.xml" "T").map
        (fun r => (List.lookup "building_id" r, List.lookup "location_id" r))
      = [(some (Value.str "B1"), some (Value.str "LOC1")),
         (some (Value.str "B2"), some (Value.str "LOC1"))] := by decide

theorem filter_tag_nil (t : String) :
    ∀ l : List Elem, (∀ e ∈ l, ¬ e.tag = t) → l.filter (fun c => c.tag == t) = [] := by
  intro l
  induction l with
  | nil => intro h; rfl
  | cons e rest ih =>
    intro h
    have he : (e.tag == t) = false :=
      beq_eq_false_iff_ne.mpr (h e (List.mem_cons_self _ _))
    simp only [List.filter_cons, he, Bool.false_eq_true, if_false]
    exact ih (fun x hx => h x (List.mem_cons_of_mem _ hx))

/-- In the canonical wrapper, the descendant search for data elements finds
exactly the one data wrapper, for any account subtree free of nested data
elements. -/
theorem acctDoc_datas (pid : String) (acct : Elem) (htag : acct.tag = "account")
    (hnodata : ∀ e ∈ acct.descendants, ¬ e.tag = "data") :
    (acctDoc pid acct).findallDesc "data"
      = [Elem.mk "data" [] none [Elem.mk "policy" [("id", pid)] none [], acct]] := by
  have hca : (acct.tag == "data") = false := by
    rw [htag]
    rfl
  have h1 : ((Elem.mk "data" [] none
      [Elem.mk "policy" [("id", pid)] none [], acct]).tag == "data") = true := rfl
  have h2 : ((Elem.mk "policy" [("id", pid)] none []).tag == "data") = false := rfl
  unfold acctDoc Elem.findallDesc
  simp only [Elem.descendants, descendantsList, List.append_nil, List.nil_append,
    List.filter_cons, List.filter_append, List.filter_nil, h1, h2, hca,
    eq_self_iff_true, if_true, Bool.false_eq_true, if_false,
    filter_tag_nil "data" (Elem.descendants acct) hnodata]

/-- In the canonical wrapper's data element, the descendant search for
accounts finds exactly the given account, for any account subtree free of
nested account elements. -/
theorem acctDoc_accounts (pid : String) (acct : Elem) (htag : acct.tag = "account")
    (hnoacc : ∀ e ∈ acct.descendants, ¬ e.tag = "account") :
    (Elem.mk "data" [] none
        [Elem.mk "policy" [("id", pid)] none [], acct]).findallDesc "account" = [acct] := by
  have hca : (acct.tag == "account") = true := by
    rw [htag]
    rfl
  have h1 : ((Elem.mk "data" [] none
      [Elem.mk "policy" [("id", pid)] none [], acct]).tag == "account") = false := rfl
  have h2 : ((Elem.mk "policy" [("id", pid)] none []).tag == "account") = false := rfl
  unfold Elem.findallDesc
  simp only [Elem.descendants, descendantsList, List.append_nil, List.nil_append,
    List.filter_cons, List.filter_append, List.filter_nil, h1, h2, hca,
    eq_self_iff_true, if_true, Bool.false_eq_true, if_false,
    filter_tag_nil "account" (Elem.descendants acct) hnoacc]

/-- Claim C3 (amended): for an ARBITRARY account subtree (one containing no
nested account or data elements) and for BOTH buildings and occupancies: the
extractor output on the canonical wrapper document is exactly the
direct-child rows followed by the nested rows, where a node directly under
the account is attributed to `account.find("location")` — so its
`location_id` is null when the account has no location children, but the
FIRST location child's id (not null, contrary to the claim) when location
children exist — and a node nested under a location carries that location's
id.  Both placements always yield a row. -/
theorem claim_C3 (sf ea pid : String) (acct : Elem) (htag : acct.tag = "account")
    (hnoacc : ∀ e ∈ acct.descendants, ¬ e.tag = "account")
    (hnodata : ∀ e ∈ acct.descendants, ¬ e.tag = "data") :
    (extractBuildings (acctDoc pid acct) sf ea
      = ((acct.findall "building").map fun b =>
          bldRec (b.get "id") ((acct.find "location").bind fun l => l.get "id")
            (some pid) sf ea)
        ++ ((acct.findall "location").flatMap fun loc =>
            (loc.findall "building").map fun b =>
              bldRec (b.get "id") (loc.get "id") (some pid) sf ea))
    ∧ (extractOccupancies (acctDoc pid acct) sf ea
      = ((acct.findall "occupancy").map fun occ =>
          occRec (occ.get "id") ((acct.find "location").bind fun l => l.get "id")
            (some pid) sf ea)
        ++ ((acct.findall "location").flatMap fun loc =>
            (loc.findall "occupancy").map fun occ =>
              occRec (occ.get "id") (loc.get "id") (some pid) sf ea))
    ∧ (acct.find "location" = none →
        ∀ b ∈ acct.findall "building",
          bldRec (b.get "id") none (some pid) sf ea
            ∈ extractBuildings (acctDoc pid acct) sf ea)
    ∧ (acct.find "location" = none →
        ∀ occ ∈ acct.findall "occupancy",
          occRec (occ.get "id") none (some pid) sf ea
            ∈ extractOccupancies (acctDoc pid acct) sf ea)
    ∧ (∀ loc ∈ acct.findall "location", ∀ b ∈ loc.findall "building",
        bldRec (b.get "id") (loc.get "id") (some pid) sf ea
          ∈ extractBuildings (acctDoc pid acct) sf ea)
    ∧ (∀ loc ∈ acct.findall "location", ∀ occ ∈ loc.findall "occupancy",
        occRec (occ.get "id") (loc.get "id") (some pid) sf ea
          ∈ extractOccupancies (acctDoc pid acct) sf ea) := by
  have hb : extractBuildings (acctDoc pid acct) sf ea
      = ((acct.findall "building").map fun b =>
          bldRec (b.get "id") ((acct.find "location").bind fun l => l.get "id")
            (some pid) sf ea)
        ++ ((acct.findall "location").flatMap fun loc =>
            (loc.findall "building").map fun b =>
              bldRec (b.get "id") (loc.get "id") (some pid) sf ea) := by
    unfold extractBuildings
    rw [acctDoc_datas pid acct htag hnodata]
    simp only [List.flatMap_cons, List.flatMap_nil, List.append_nil]
    rw [acctDoc_accounts pid acct htag hnoacc]
    simp only [List.flatMap_cons, List.flatMap_nil, List.append_nil]
    rfl
  have ho : extractOccupancies (acctDoc pid acct) sf ea
      = ((acct.findall "occupancy").map fun occ =>
          occRec (occ.get "id") ((acct.find "location").bind fun l => l.get "id")
            (some pid) sf ea)
        ++ ((acct.findall "location").flatMap fun loc =>
            (loc.findall "occupancy").map fun occ =>
              occRec (occ.get "id") (loc.get "id") (some pid) sf ea) := by
    unfold extractOccupancies
    rw [acctDoc_datas pid acct htag hnodata]
    simp only [List.flatMap_cons, List.flatMap_nil, List.append_nil]
    rw [acctDoc_accounts pid acct htag hnoacc]
    simp only [List.flatMap_cons, List.flatMap_nil, List.append_nil]
    rfl
  refine ⟨hb, ho, ?_, ?_, ?_, ?_⟩
  · intro hnone b hbm
    rw [hb]
    apply List.mem_append_left
    have heq : bldRec (b.get "id") none (some pid) sf ea
        = bldRec (b.get "id") ((acct.find "location").bind fun l => l.get "id")
            (some pid) sf ea := by
      rw [hnone]
      rfl
    rw [heq]
    exact List.mem_map_of_mem _ hbm
  · intro hnone occ hom
    rw [ho]
    apply List.mem_append_left
    have heq : occRec (occ.get "id") none (some pid) sf ea
        = occRec (occ.get "id") ((acct.find "location").bind fun l => l.get "id")
            (some pid) sf ea := by
      rw [hnone]
      rfl
    rw [heq]
    exact List.mem_map_of_mem _ hom
  · intro loc hloc b hbm
    rw [hb]
    apply List.mem_append_right
    exact List.mem_flatMap.mpr ⟨loc, hloc, List.mem_map_of_mem _ hbm⟩
  · intro loc hloc occ hom
    rw [ho]
    apply List.mem_append_right
    exact List.mem_flatMap.mpr ⟨loc, hloc, List.mem_map_of_mem _ hom⟩

/-- Witness for `claim_C3`: the concrete account `acctA1` (one location
child holding a building, plus a direct-child building) satisfies the side
conditions, and the buildings equality is obtained at it. -/
theorem claim_C3_witness :
    (acctA1.tag = "account"
      ∧ (∀ e ∈ acctA1.descendants, ¬ e.tag = "account")
      ∧ (∀ e ∈ acctA1.descendants, ¬ e.tag = "data"))
    ∧ extractBuildings (acctDoc "P1" acctA1) "f.xml" "T"
        = ((acctA1.findall "building").map fun b =>
            bldRec (b.get "id") ((acctA1.find "location").bind fun l => l.get "id")
              (some "P1") "f.xml" "T")
          ++ ((acctA1.findall "location").flatMap fun loc =>
              (loc.findall "building").map fun b =>
                bldRec (b.get "id") (loc.get "id") (some "P1") "f.xml" "T") :=
  ⟨⟨rfl, by decide, by decide⟩,
    (claim_C3 "f.xml" "T" "P1" acctA1 rfl (by decide) (by decide)).1⟩

/-- Claim C4, code behavior at the failing input: the source calls
`_get_float(line, line.get("written"))`, passing the attribute string as the
DEFAULT while parsing the line element's own text.  A line with
`written="100.5"` and `change="abc"` and no element text therefore yields
the RAW attribute strings, not parsed floats and not null — even though the
connector's own schema declares both columns as doubles. -/
theorem claim_C4 :
    ((extractLines docC4 "f.xml" "T").map
        (fun r => (List.lookup "written" r, List.lookup "change" r))
      = [(some (Value.str "100.5"), some (Value.str "abc"))])
    ∧ ∃ cols, getTableSchema "lines" = Except.ok cols
        ∧ ("written", SparkType.double, true) ∈ cols
        ∧ ("change", SparkType.double, true) ∈ cols := by
  refine ⟨by decide, ⟨_, rfl, by decide, by decide⟩⟩

/-- Counterexample for claim C5 as stated: `docC5` holds one data element
with two policies `P1` and `P2`, each containing one account.  The claim
says each account row's `policy_id` is the id of its actual ancestor policy,
so `A2` should carry `P2`; the code takes `data.find("policy")` — the FIRST
policy — for every account under the data element, so `A2` carries `P1`. -/
theorem claim_C5_counterexample :
    (extractAccounts docC5 "f.xml" "T").map
        (fun r => (List.lookup "account_id" r, List.lookup "policy_id" r))
      = [(some (Value.str "A1"), some (Value.str "P1")),
         (some (Value.str "A2"), some (Value.str "P1"))] := by decide

/-- Claim C5 (amended): the five account-rooted extraction rules — accounts,
locations, buildings, occupancies, addresses — attach as `policy_id` the id
of the FIRST policy child of the enclosing data element (null when that data
element has no policy child), regardless of which policy node is the actual
ancestor: in a multi-policy data element, entities reached under the second
or later policy are mis-attributed to the first policy (shown concretely on
`docC5b` for all five tables), and the claimed ancestor linkage holds for
these tables only when each data element holds a single policy.  The
policy-rooted rules (lines, coverages, exposures, limits, deductibles,
referrals, tax surcharges) iterate over every policy node and do carry the
true ancestor's id. -/
theorem claim_C5 (root : Elem) (sf ea : String) :
    ((∀ r ∈ extractAccounts root sf ea, ∃ data ∈ root.findallDesc "data",
        List.lookup "policy_id" r
          = some (strOpt ((data.find "policy").bind fun p => p.get "id")))
      ∧ (∀ r ∈ extractLocations root sf ea, ∃ data ∈ root.findallDesc "data",
          List.lookup "policy_id" r
            = some (strOpt ((data.find "policy").bind fun p => p.get "id")))
      ∧ (∀ r ∈ extractBuildings root sf ea, ∃ data ∈ root.findallDesc "data",
          List.lookup "policy_id" r
            = some (strOpt ((data.find "policy").bind fun p => p.get "id")))
      ∧ (∀ r ∈ extractOccupancies root sf ea, ∃ data ∈ root.findallDesc "data",
          List.lookup "policy_id" r
            = some (strOpt ((data.find "policy").bind fun p => p.get "id")))
      ∧ (∀ r ∈ extractAddresses root sf ea, ∃ data ∈ root.findallDesc "data",
          List.lookup "policy_id" r
            = some (strOpt ((data.find "policy").bind fun p => p.get "id"))))
    ∧ ((extractAccounts docC5b "f.xml" "T").map (List.lookup "policy_id")
          = [some (Value.str "P1"), some (Value.str "P1")]
      ∧ (extractLocations docC5b "f.xml" "T").map (List.lookup "policy_id")
          = [some (Value.str "P1"), some (Value.str "P1")]
      ∧ (extractBuildings docC5b "f.xml" "T").map (List.lookup "policy_id")
          = [some (Value.str "P1"), some (Value.str "P1")]
      ∧ (extractOccupancies docC5b "f.xml" "T").map (List.lookup "policy_id")
          = [some (Value.str "P1"), some (Value.str "P1")]
      ∧ (extractAddresses docC5b "f.xml" "T").map (List.lookup "policy_id")
          = [some (Value.str "P1"), some (Value.str "P1")])
    ∧ ((extractAccounts docNoPolicy "f.xml" "T").map (List.lookup "policy_id")
          = [some Value.null]
      ∧ (extractLocations docNoPolicy "f.xml" "T").map (List.lookup "policy_id")
          = [some Value.null]) := by
  refine ⟨⟨?_, ?_, ?_, ?_, ?_⟩,
    ⟨by decide, by decide, by decide, by decide, by decide⟩, by decide, by decide⟩
  · intro r hr
    unfold extractAccounts at hr
    obtain ⟨data, hd, hr2⟩ := List.mem_flatMap.mp hr
    obtain ⟨account, ha, hre⟩ := List.mem_map.mp hr2
    refine ⟨data, hd, ?_⟩
    rw [← hre]
    rfl
  · intro r hr
    unfold extractLocations at hr
    obtain ⟨data, hd, hr2⟩ := List.mem_flatMap.mp hr
    obtain ⟨account, ha, hr3⟩ := List.mem_flatMap.mp hr2
    obtain ⟨location, hl, hre⟩ := List.mem_map.mp hr3
    refine ⟨data, hd, ?_⟩
    rw [← hre]
    rfl
  · intro r hr
    unfold extractBuildings at hr
    obtain ⟨data, hd, hr2⟩ := List.mem_flatMap.mp hr
    obtain ⟨account, ha, hr3⟩ := List.mem_flatMap.mp hr2
    refine ⟨data, hd, ?_⟩
    rcases List.mem_append.mp hr3 with h4 | h4
    · obtain ⟨b, hb, hre⟩ := List.mem_map.mp h4
      rw [← hre]
      rfl
    · obtain ⟨loc, hl, h5⟩ := List.mem_flatMap.mp h4
      obtain ⟨b, hb, hre⟩ := List.mem_map.mp h5
      rw [← hre]
      rfl
  · intro r hr
    unfold extractOccupancies at hr
    obtain ⟨data, hd, hr2⟩ := List.mem_flatMap.mp hr
    obtain ⟨account, ha, hr3⟩ := List.mem_flatMap.mp hr2
    refine ⟨data, hd, ?_⟩
    rcases List.mem_append.mp hr3 with h4 | h4
    · obtain ⟨occ, ho, hre⟩ := List.mem_map.mp h4
      rw [← hre]
      rfl
    · obtain ⟨loc, hl, h5⟩ := List.mem_flatMap.mp h4
      obtain ⟨occ, ho, hre⟩ := List.mem_map.mp h5
      rw [← hre]
      rfl
  · intro r hr
    unfold extractAddresses at hr
    obtain ⟨data, hd, hr2⟩ := List.mem_flatMap.mp hr
    obtain ⟨account, ha, hr3⟩ := List.mem_flatMap.mp hr2
    refine ⟨data, hd, ?_⟩
    rcases List.mem_append.mp hr3 with h4 | h4
    · obtain ⟨address, had, hre⟩ := List.mem_map.mp h4
      rw [← hre]
      rfl
    · obtain ⟨loc, hl, h5⟩ := List.mem_flatMap.mp h4
      obtain ⟨address, had, hre⟩ := List.mem_map.mp h5
      rw [← hre]
      rfl

/-- Witness for `claim_C5`: a concrete accounts record of the two-policy
document `docC5` is in the extractor output, and the theorem yields for it
an enclosing data element whose first policy's id is its `policy_id`. -/
theorem claim_C5_witness :
    (acctRec (some "A1") (some "P1")
        (Elem.mk "account" [("id", "A1")] none []) "f.xml" "T"
      ∈ extractAccounts docC5 "f.xml" "T")
    ∧ ∃ data ∈ docC5.findallDesc "data",
        List.lookup "policy_id"
            (acctRec (some "A1") (some "P1")
              (Elem.mk "account" [("id", "A1")] none []) "f.xml" "T")
          = some (strOpt ((data.find "policy").bind fun p => p.get "id")) := by
  have hmem : acctRec (some "A1") (some "P1")
      (Elem.mk "account" [("id", "A1")] none []) "f.xml" "T"
      ∈ extractAccounts docC5 "f.xml" "T" := by decide
  exact ⟨hmem, (claim_C5 docC5 "f.xml" "T").1.1 _ hmem⟩

/-! ## Claim C2: synthesized coverage keys within one file -/

/-- Combining two consecutive counter segments: records with counters in
`(c, c1]` followed by records with counters in `(c1, c2]` have pairwise
distinct synthesized coverage ids. -/
theorem synth_append {c c1 c2 : Nat} {rs1 rs2 : List Record}
    (h1a : c ≤ c1) (h2a : c1 ≤ c2)
    (h1b : ∀ r ∈ rs1, ∃ pre k, c < k ∧ k ≤ c1
      ∧ List.lookup "coverage_id" r = some (Value.str (pre ++ "_" ++ natToDec k)))
    (h2b : ∀ r ∈ rs2, ∃ pre k, c1 < k ∧ k ≤ c2
      ∧ List.lookup "coverage_id" r = some (Value.str (pre ++ "_" ++ natToDec k)))
    (h1c : (rs1.map (List.lookup "coverage_id")).Pairwise (· ≠ ·))
    (h2c : (rs2.map (List.lookup "coverage_id")).Pairwise (· ≠ ·)) :
    c ≤ c2
    ∧ (∀ r ∈ rs1 ++ rs2, ∃ pre k, c < k ∧ k ≤ c2
        ∧ List.lookup "coverage_id" r = some (Value.str (pre ++ "_" ++ natToDec k)))
    ∧ ((rs1 ++ rs2).map (List.lookup "coverage_id")).Pairwise (· ≠ ·) := by
  refine ⟨le_trans h1a h2a, ?_, ?_⟩
  · intro r hr
    rcases List.mem_append.mp hr with hr | hr
    · obtain ⟨pre, k, hk1, hk2, hk3⟩ := h1b r hr
      exact ⟨pre, k, hk1, le_trans hk2 h2a, hk3⟩
    · obtain ⟨pre, k, hk1, hk2, hk3⟩ := h2b r hr
      exact ⟨pre, k, lt_of_le_of_lt h1a hk1, hk2, hk3⟩
  · rw [List.map_append]
    refine List.pairwise_append.mpr ⟨h1c, h2c, ?_⟩
    intro x hx y hy
    obtain ⟨r1, hr1, hx1⟩ := List.mem_map.mp hx
    obtain ⟨r2, hr2, hy1⟩ := List.mem_map.mp hy
    obtain ⟨p1, k1, ha1, ha2, ha3⟩ := h1b r1 hr1
    obtain ⟨p2, k2, hb1, hb2, hb3⟩ := h2b r2 hr2
    rw [← hx1, ← hy1, ha3, hb3]
    intro he
    have hv := Option.some.inj he
    have hs := Value.str.inj hv
    exact synth_ne_of_ctr_ne (show k1 ≠ k2 by omega) hs

theorem covLoopCovs_synth (sf ea : String) (pid lid : Option String) :
    ∀ (covs : List Elem) (c : Nat),
      (∀ cov ∈ covs, ((cov.get "id").getD "") = "") →
      c ≤ (covLoopCovs sf ea pid lid covs c).2
      ∧ (∀ r ∈ (covLoopCovs sf ea pid lid covs c).1,
          ∃ pre k, c < k ∧ k ≤ (covLoopCovs sf ea pid lid covs c).2
            ∧ List.lookup "coverage_id" r = some (Value.str (pre ++ "_" ++ natToDec k)))
      ∧ ((covLoopCovs sf ea pid lid covs c).1.map
          (List.lookup "coverage_id")).Pairwise (· ≠ ·) := by
  intro covs
  induction covs with
  | nil =>
    intro c hc
    exact ⟨le_rfl, by simp [covLoopCovs], by simp [covLoopCovs]⟩
  | cons cov rest ih =>
    intro c hc
    have hhd : ((cov.get "id").getD "") = "" := hc cov (List.mem_cons_self _ _)
    have htl : ∀ x ∈ rest, ((x.get "id").getD "") = "" :=
      fun x hx => hc x (List.mem_cons_of_mem _ hx)
    obtain ⟨ih1, ih2, ih3⟩ := ih (c + 1) htl
    simp only [covLoopCovs, if_pos hhd]
    refine ⟨by omega, ?_, ?_⟩
    · intro r hr
      rcases List.mem_cons.mp hr with hr | hr
      · subst hr
        exact ⟨"cov_" ++ pyStr pid ++ "_" ++ pyStr lid, c + 1, by omega, ih1, rfl⟩
      · obtain ⟨pre, k, hk1, hk2, hk3⟩ := ih2 r hr
        exact ⟨pre, k, by omega, hk2, hk3⟩
    · simp only [List.map_cons]
      refine List.Pairwise.cons ?_ ih3
      intro y hy
      obtain ⟨r, hr, hry⟩ := List.mem_map.mp hy
      obtain ⟨pre, k, hk1, hk2, hk3⟩ := ih2 r hr
      rw [← hry, hk3]
      have hl : List.lookup "coverage_id"
          (covRec ("cov_" ++ pyStr pid ++ "_" ++ pyStr lid ++ "_" ++ natToDec (c + 1))
            lid pid cov sf ea)
          = some (Value.str ("cov_" ++ pyStr pid ++ "_" ++ pyStr lid ++ "_"
              ++ natToDec (c + 1))) := rfl
      rw [hl]
      intro he
      have hv := Option.some.inj he
      have hs := Value.str.inj hv
      exact synth_ne_of_ctr_ne (show c + 1 ≠ k by omega) hs

theorem covLoopLines_synth (sf ea : String) (pid : Option String) :
    ∀ (ls : List Elem) (c : Nat),
      (∀ cov ∈ ls.flatMap (fun l => l.findall "coverage"), ((cov.get "id").getD "") = "") →
      c ≤ (covLoopLines sf ea pid ls c).2
      ∧ (∀ r ∈ (covLoopLines sf ea pid ls c).1,
          ∃ pre k, c < k ∧ k ≤ (covLoopLines sf ea pid ls c).2
            ∧ List.lookup "coverage_id" r = some (Value.str (pre ++ "_" ++ natToDec k)))
      ∧ ((covLoopLines sf ea pid ls c).1.map
          (List.lookup "coverage_id")).Pairwise (· ≠ ·) := by
  intro ls
  induction ls with
  | nil =>
    intro c hc
    exact ⟨le_rfl, by simp [covLoopLines], by simp [covLoopLines]⟩
  | cons line rest ih =>
    intro c hc
    have hhd : ∀ cov ∈ line.findall "coverage", ((cov.get "id").getD "") = "" := by
      intro cov hcov
      exact hc cov (List.mem_flatMap.mpr ⟨line, List.mem_cons_self _ _, hcov⟩)
    have htl : ∀ cov ∈ rest.flatMap (fun l => l.findall "coverage"),
        ((cov.get "id").getD "") = "" := by
      intro cov hcov
      obtain ⟨l, hl, hcv⟩ := List.mem_flatMap.mp hcov
      exact hc cov (List.mem_flatMap.mpr ⟨l, List.mem_cons_of_mem _ hl, hcv⟩)
    obtain ⟨h1a, h1b, h1c⟩ :=
      covLoopCovs_synth sf ea pid (line.get "id") (line.findall "coverage") c hhd
    obtain ⟨h2a, h2b, h2c⟩ :=
      ih ((covLoopCovs sf ea pid (line.get "id") (line.findall "coverage") c).2) htl
    simp only [covLoopLines]
    exact synth_append h1a h2a h1b h2b h1c h2c

theorem covLoopPolicies_synth (sf ea : String) :
    ∀ (ps : List Elem) (c : Nat),
      (∀ cov ∈ ps.flatMap (fun p => (p.findall "line").flatMap fun l => l.findall "coverage"),
          ((cov.get "id").getD "") = "") →
      c ≤ (covLoopPolicies sf ea ps c).2
      ∧ (∀ r ∈ (covLoopPolicies sf ea ps c).1,
          ∃ pre k, c < k ∧ k ≤ (covLoopPolicies sf ea ps c).2
            ∧ List.lookup "coverage_id" r = some (Value.str (pre ++ "_" ++ natToDec k)))
      ∧ ((covLoopPolicies sf ea ps c).1.map
          (List.lookup "coverage_id")).Pairwise (· ≠ ·) := by
  intro ps
  induction ps with
  | nil =>
    intro c hc
    exact ⟨le_rfl, by simp [covLoopPolicies], by simp [covLoopPolicies]⟩
  | cons policy rest ih =>
    intro c hc
    have hhd : ∀ cov ∈ (policy.findall "line").flatMap (fun l => l.findall "coverage"),
        ((cov.get "id").getD "") = "" := by
      intro cov hcov
      exact hc cov (List.mem_flatMap.mpr ⟨policy, List.mem_cons_self _ _, hcov⟩)
    have htl : ∀ cov ∈ rest.flatMap
        (fun p => (p.findall "line").flatMap fun l => l.findall "coverage"),
        ((cov.get "id").getD "") = "" := by
      intro cov hcov
      obtain ⟨p, hp, hcv⟩ := List.mem_flatMap.mp hcov
      exact hc cov (List.mem_flatMap.mpr ⟨p, List.mem_cons_of_mem _ hp, hcv⟩)
    obtain ⟨h1a, h1b, h1c⟩ :=
      covLoopLines_synth sf ea (policy.get "id") (policy.findall "line") c hhd
    obtain ⟨h2a, h2b, h2c⟩ :=
      ih ((covLoopLines sf ea (policy.get "id") (policy.findall "line") c).2) htl
    simp only [covLoopPolicies]
    exact synth_append h1a h2a h1b h2b h1c h2c

theorem covLoopDatas_synth (sf ea : String) :
    ∀ (ds : List Elem) (c : Nat),
      (∀ cov ∈ ds.flatMap (fun d => (d.findall "policy").flatMap
          fun p => (p.findall "line").flatMap fun l => l.findall "coverage"),
          ((cov.get "id").getD "") = "") →
      c ≤ (covLoopDatas sf ea ds c).2
      ∧ (∀ r ∈ (covLoopDatas sf ea ds c).1,
          ∃ pre k, c < k ∧ k ≤ (covLoopDatas sf ea ds c).2
            ∧ List.lookup "coverage_id" r = some (Value.str (pre ++ "_" ++ natToDec k)))
      ∧ ((covLoopDatas sf ea ds c).1.map
          (List.lookup "coverage_id")).Pairwise (· ≠ ·) := by
  intro ds
  induction ds with
  | nil =>
    intro c hc
    exact ⟨le_rfl, by simp [covLoopDatas], by simp [covLoopDatas]⟩
  | cons data rest ih =>
    intro c hc
    have hhd : ∀ cov ∈ (data.findall "policy").flatMap
        (fun p => (p.findall "line").flatMap fun l => l.findall "coverage"),
        ((cov.get "id").getD "") = "" := by
      intro cov hcov
      exact hc cov (List.mem_flatMap.mpr ⟨data, List.mem_cons_self _ _, hcov⟩)
    have htl : ∀ cov ∈ rest.flatMap (fun d => (d.findall "policy").flatMap
        fun p => (p.findall "line").flatMap fun l => l.findall "coverage"),
        ((cov.get "id").getD "") = "" := by
      intro cov hcov
      obtain ⟨d, hd, hcv⟩ := List.mem_flatMap.mp hcov
      exact hc cov (List.mem_flatMap.mpr ⟨d, List.mem_cons_of_mem _ hd, hcv⟩)
    obtain ⟨h1a, h1b, h1c⟩ :=
      covLoopPolicies_synth sf ea (data.findall "policy") c hhd
    obtain ⟨h2a, h2b, h2c⟩ :=
      ih ((covLoopPolicies sf ea (data.findall "policy") c).2) htl
    simp only [covLoopDatas]
    exact synth_append h1a h2a h1b h2b h1c h2c

/-- Counterexample for claim C2 as stated: two distinct files in the same
extraction call containing identical ancestor ids (`P1`, `L1`) and an
identifier-less coverage node each receive the same synthesized id
`cov_P1_L1_1` (the per-file counter restarts at zero for each file), so the
metadata-declared primary-key tuples of the call's records are NOT pairwise
distinct. -/
theorem claim_C2_counterexample :
    ¬ ((extractTableRecords "coverages" [fileA, fileB] "T").map
        (pkProj "coverages")).Pairwise (· ≠ ·) := by decide

/-- Claim C2 (amended): within a single file, the coverage records
synthesized for identifier-less nodes carry a strictly increasing per-file
counter in the final underscore-separated segment of their synthesized id,
so their metadata-declared primary-key tuples are pairwise distinct.  This
per-file uniqueness does not extend across the files of one call (the
counter restarts per file), nor to explicit source ids, which may collide
with synthesized ones. -/
theorem claim_C2 (root : Elem) (sf ea : String)
    (h : ∀ cov ∈ covNodes root, ((cov.get "id").getD "") = "") :
    ((extractCoverages root sf ea).map (pkProj "coverages")).Pairwise (· ≠ ·) := by
  obtain ⟨-, -, hp⟩ := covLoopDatas_synth sf ea (root.findallDesc "data") 0 h
  have hp' : ((extractCoverages root sf ea).map
      (List.lookup "coverage_id")).Pairwise (· ≠ ·) := hp
  rw [List.pairwise_map] at hp' ⊢
  refine hp'.imp ?_
  intro r1 r2 hne heq
  apply hne
  have h1 : pkProj "coverages" r1
      = [List.lookup "coverage_id" r1, List.lookup "line_id" r1,
         List.lookup "policy_id" r1] := rfl
  have h2 : pkProj "coverages" r2
      = [List.lookup "coverage_id" r2, List.lookup "line_id" r2,
         List.lookup "policy_id" r2] := rfl
    
  rw [h1, h2] at heq
  injection heq

/-- Witness for `claim_C2` on the concrete document `docA` (one
identifier-less coverage). -/
theorem claim_C2_witness :
    (∀ cov ∈ covNodes docA, ((cov.get "id").getD "") = "")
    ∧ ((extractCoverages docA "f.xml" "T").map (pkProj "coverages")).Pairwise (· ≠ ·) :=
  ⟨by decide, claim_C2 docA "f.xml" "T" (by decide)⟩
